import Mathlib

/-!
# Service requests and status tracking: a shallow embedding

The development embeds the request and status routes of the backend
(`routes/requests.js`, `routes/status.js`) together with the two Sequelize
models they use (`models/ServiceRequest.js`, `models/StatusTracking.js`), the
middleware `verifyToken` (`middleware/auth.js`), the registration and login
routes (`routes/auth.js`, `models/User.js`) and the function `validateEmail`
of the browser code (`frontend/js/auth.js`).

Modelling conventions.

* The MySQL store is a pair of tables kept as lists in insertion order, each
  with its auto-increment counter (ids start at 1 and are never reused).  The
  store enforces the declared schema: `allowNull: false`, the `validate.len`
  rules, the values of an `ENUM` column and the width of a `STRING(255)`
  column; a violation raises an error that the handler's `catch` block turns
  into a 500 response.  The length of a string is its number of characters
  (code points).
* A query that orders by an attribute the model does not have is rejected by
  the database (unknown column).  `StatusTracking` is defined with
  `timestamps: false, createdAt: 'timestamp'`: it has no attribute `createdAt`.
* A body field that the handlers treat as text is a `Field`: `undefined`
  (absent), `null` or a string.  Identifiers are natural numbers, a missing
  identifier is `none`.
* The functions of `jsonwebtoken`, `bcryptjs` and `validator` are parameters
  of the definitions that call them.
* A handler takes the store, the verified caller (`req.userId`, set by
  `verifyToken`; the caller is a registered user), the clock reading used for
  timestamps and its arguments, and returns the HTTP response together with
  the store after the call.  Handlers run one after the other, except in the
  step model of `POST /api/status/track`, which exposes the store between two
  consecutive `await`s.
-/

namespace OnlineService

/-! ## Values of a request body -/

/-- A text field of a JSON request body as JavaScript sees it after
destructuring: absent (`undefined`), `null`, or a string. -/
inductive Field where
  | undefined
  | null
  | str (s : String)
  deriving DecidableEq, Repr

/-- JavaScript truthiness of a text field: `undefined`, `null` and the empty
string are falsy. -/
def Field.truthy : Field → Bool
  | .str s => s != ""
  | _ => false

/-- The expression `v || null` on a text field. -/
def Field.orNull : Field → Option String
  | .str s => if s != "" then some s else none
  | _ => none

/-- The expression `v || d` on a text field, for a string default `d`. -/
def Field.orDefault (d : String) : Field → String
  | .str s => if s != "" then s else d
  | _ => d

/-! ## The models -/

/-- Values of `DataTypes.ENUM` for `ServiceRequest.serviceType`. -/
def serviceTypes : List String :=
  ["Maintenance", "Repair", "Installation", "Support", "Consultation"]

/-- Values of `DataTypes.ENUM` for `ServiceRequest.priority`. -/
def priorities : List String := ["Low", "Medium", "High", "Urgent"]

/-- Values of `DataTypes.ENUM` for the `status` column of both models. -/
def statuses : List String :=
  ["Pending", "Assigned", "In Progress", "On Hold", "Completed", "Cancelled"]

/-- A row of the `ServiceRequests` table (`models/ServiceRequest.js`, with
`timestamps: true`).  `priority` and `location` are nullable columns. -/
structure ServiceRequest where
  id : Nat
  userId : Nat
  serviceType : String
  description : String
  priority : Option String
  location : Option String
  status : String
  completedAt : Option Nat
  createdAt : Nat
  updatedAt : Nat
  deriving DecidableEq, Repr

/-- A row of the `StatusTrackings` table (`models/StatusTracking.js`).  The
model is defined with `timestamps: false`, so the table has exactly these five
columns and no timestamp column. -/
structure StatusTracking where
  id : Nat
  requestId : Nat
  status : String
  assignedTo : Option String
  notes : Option String
  deriving DecidableEq, Repr

/-- The attribute names of the `StatusTracking` model. -/
def StatusTracking.columns : List String :=
  ["id", "requestId", "status", "assignedTo", "notes"]

/-- A cell of a table, used to order rows by a column. -/
inductive Cell where
  | null
  | int (n : Nat)
  | text (s : String)
  deriving DecidableEq, Repr

/-- Ordering of cells used by `ORDER BY`: `NULL` first, numbers by value,
strings lexicographically. -/
def Cell.le : Cell → Cell → Bool
  | .null, _ => true
  | .int _, .null => false
  | .int a, .int b => decide (a ≤ b)
  | .int _, .text _ => true
  | .text _, .null => false
  | .text _, .int _ => false
  | .text a, .text b => decide (a ≤ b)

/-- The value of attribute `col` of a ledger row, `none` when the model has no
such attribute. -/
def StatusTracking.attribute (t : StatusTracking) (col : String) : Option Cell :=
  if col = "id" then some (.int t.id)
  else if col = "requestId" then some (.int t.requestId)
  else if col = "status" then some (.text t.status)
  else if col = "assignedTo" then
    some (match t.assignedTo with | some a => .text a | none => .null)
  else if col = "notes" then
    some (match t.notes with | some a => .text a | none => .null)
  else none

/-- What a store operation can raise.  Every one of them reaches the `catch`
block of the calling handler. -/
inductive StoreError where
  /-- Sequelize `notNull Violation` on a column with `allowNull: false`. -/
  | notNull (column : String)
  /-- A `validate` rule of a model failed; `msg` is the rule's `msg`. -/
  | validation (msg : String)
  /-- The value is not among the values of the `ENUM` column. -/
  | invalidEnum (column : String)
  /-- The value is longer than the width of the `STRING(n)` column. -/
  | tooLong (column : String)
  /-- The query names a column the table does not have. -/
  | unknownColumn (column : String)
  /-- The insert repeats a value of a column declared `unique: true`. -/
  | uniqueViolation (column : String)
  /-- The underlying store failed (connection lost, timeout, ...). -/
  | unavailable
  /-- The error `Illegal arguments` of `bcryptjs`: an argument of `compare` is
  not a string. -/
  | illegalArguments
  deriving DecidableEq, Repr

/-- The database: both tables in insertion order and their auto-increment
counters. -/
structure Store where
  requests : List ServiceRequest
  tracking : List StatusTracking
  nextRequestId : Nat
  nextTrackingId : Nat
  deriving DecidableEq, Repr

/-- The store after `sequelize.sync()` on an empty database. -/
def Store.empty : Store :=
  { requests := [], tracking := [], nextRequestId := 1, nextTrackingId := 1 }

/-! ## Store operations (the Sequelize calls made by the handlers) -/

/-- The call `ServiceRequest.findOne` with `where: (id, userId)`. -/
def ServiceRequest.findOne (s : Store) (id userId : Nat) : Option ServiceRequest :=
  s.requests.find? (fun r => r.id == id && r.userId == userId)

/-- Rule `validate.len [10, 1000]` and `allowNull: false` of `description`. -/
def checkDescription (v : String) : Except StoreError Unit :=
  if 10 ≤ v.length ∧ v.length ≤ 1000 then .ok ()
  else .error (.validation "Description must be between 10 and 1000 characters")

/-- Column type `ENUM(...)` of `serviceType`. -/
def checkServiceType (v : String) : Except StoreError Unit :=
  if v ∈ serviceTypes then .ok () else .error (.invalidEnum "serviceType")

/-- Column type `ENUM(...)` of `priority`; the column is nullable. -/
def checkPriority : Option String → Except StoreError Unit
  | none => .ok ()
  | some v => if v ∈ priorities then .ok () else .error (.invalidEnum "priority")

/-- Column type `STRING(255)` of `location`; the column is nullable. -/
def checkLocation : Option String → Except StoreError Unit
  | none => .ok ()
  | some v => if v.length ≤ 255 then .ok () else .error (.tooLong "location")

/-- Column type `ENUM(...)` of `status`. -/
def checkStatus (v : String) : Except StoreError Unit :=
  if v ∈ statuses then .ok () else .error (.invalidEnum "status")

/-- Column type `STRING(255)` of `assignedTo`; the column is nullable. -/
def checkAssignedTo : Option String → Except StoreError Unit
  | none => .ok ()
  | some v => if v.length ≤ 255 then .ok () else .error (.tooLong "assignedTo")

/-- Rule `validate.len [0, 500]` of `notes`; skipped for `null`. -/
def checkNotes : Option String → Except StoreError Unit
  | none => .ok ()
  | some v =>
    if v.length ≤ 500 then .ok ()
    else .error (.validation "Notes cannot exceed 500 characters")

/-- The call `ServiceRequest.create` with the five values the handler passes.
The remaining columns take their defaults: `status` is `'Pending'`,
`completedAt` is `NULL`, both timestamps are the current time.  Model
validation runs first, then the insert. -/
def ServiceRequest.create (s : Store) (now userId : Nat) (serviceType description : String)
    (priority location : Option String) : Except StoreError (ServiceRequest × Store) := do
  checkDescription description
  checkServiceType serviceType
  checkPriority priority
  checkLocation location
  let r : ServiceRequest :=
    { id := s.nextRequestId, userId := userId, serviceType := serviceType,
      description := description, priority := priority, location := location,
      status := "Pending", completedAt := none, createdAt := now, updatedAt := now }
  pure (r, { s with requests := s.requests ++ [r], nextRequestId := s.nextRequestId + 1 })

/-- The call `StatusTracking.create` with the four values the handler passes. -/
def StatusTracking.create (s : Store) (requestId : Nat) (status : String)
    (assignedTo notes : Option String) : Except StoreError (StatusTracking × Store) := do
  checkNotes notes
  checkStatus status
  checkAssignedTo assignedTo
  let t : StatusTracking :=
    { id := s.nextTrackingId, requestId := requestId, status := status,
      assignedTo := assignedTo, notes := notes }
  pure (t, { s with tracking := s.tracking ++ [t], nextTrackingId := s.nextTrackingId + 1 })

/-- Descending sort of ledger rows by the cells `key` extracts. -/
def sortDesc (key : StatusTracking → Cell) (rows : List StatusTracking) : List StatusTracking :=
  rows.mergeSort (fun a b => Cell.le (key b) (key a))

/-- The call `StatusTracking.findAll` with `where: (requestId)` and
`order: [[col, 'DESC']]`.  The generated query is
`SELECT ... WHERE requestId = ? ORDER BY col DESC`; MySQL rejects it when the
table has no column `col`. -/
def StatusTracking.findAll (s : Store) (requestId : Nat) (col : String) :
    Except StoreError (List StatusTracking) :=
  if col ∈ StatusTracking.columns then
    .ok (sortDesc (fun t => (t.attribute col).getD .null)
      (s.tracking.filter (fun t => t.requestId == requestId)))
  else .error (.unknownColumn col)

/-- The call `StatusTracking.findOne` with the same options: the first row of
the ordered result. -/
def StatusTracking.findOne (s : Store) (requestId : Nat) (col : String) :
    Except StoreError (Option StatusTracking) :=
  (StatusTracking.findAll s requestId col).map List.head?

/-- The attribute names of the `ServiceRequest` model; `createdAt` and
`updatedAt` come from `timestamps: true`. -/
def ServiceRequest.columns : List String :=
  ["id", "userId", "serviceType", "description", "priority", "location", "status",
   "completedAt", "createdAt", "updatedAt"]

/-- The cell of a nullable text column. -/
def Cell.ofText : Option String → Cell
  | some a => .text a
  | none => .null

/-- The cell of a nullable numeric column. -/
def Cell.ofInt : Option Nat → Cell
  | some n => .int n
  | none => .null

/-- The value of attribute `col` of a request row, `none` when the model has no
such attribute. -/
def ServiceRequest.attribute (r : ServiceRequest) (col : String) : Option Cell :=
  if col = "id" then some (.int r.id)
  else if col = "userId" then some (.int r.userId)
  else if col = "serviceType" then some (.text r.serviceType)
  else if col = "description" then some (.text r.description)
  else if col = "priority" then some (Cell.ofText r.priority)
  else if col = "location" then some (Cell.ofText r.location)
  else if col = "status" then some (.text r.status)
  else if col = "completedAt" then some (Cell.ofInt r.completedAt)
  else if col = "createdAt" then some (.int r.createdAt)
  else if col = "updatedAt" then some (.int r.updatedAt)
  else none

/-- The relation `ORDER BY col DESC` puts between two request rows: the first
may precede the second when its cell is not smaller. -/
def ServiceRequest.precedes (col : String) (a b : ServiceRequest) : Prop :=
  Cell.le ((b.attribute col).getD .null) ((a.attribute col).getD .null) = true

instance (col : String) : DecidableRel (ServiceRequest.precedes col) :=
  fun a b => inferInstanceAs
    (Decidable (Cell.le ((b.attribute col).getD .null) ((a.attribute col).getD .null) = true))

/-- The call `ServiceRequest.findAll` with `where: (userId)` and
`order: [[col, 'DESC']]`.  Rows with equal cells keep their insertion order
(SQL leaves their order open; no theorem below depends on it). -/
def ServiceRequest.findAll (s : Store) (userId : Nat) (col : String) :
    Except StoreError (List ServiceRequest) :=
  if col ∈ ServiceRequest.columns then
    .ok ((s.requests.filter (fun r => r.userId == userId)).insertionSort
      (ServiceRequest.precedes col))
  else .error (.unknownColumn col)

/-- The object passed to `request.update(...)`.  A key whose value is
`undefined` is dropped by Sequelize before anything is set; `status` is `none`
when the key is not part of the object. -/
structure Patch where
  serviceType : Field := .undefined
  description : Field := .undefined
  priority : Field := .undefined
  location : Field := .undefined
  status : Option String := none
  deriving DecidableEq, Repr

/-- Validation of the keys present in a patch: first the model rules
(`allowNull: false`, `validate.len`), then the column types. -/
def Patch.check (p : Patch) : Except StoreError Unit := do
  match p.serviceType with
    | .null => throw (.notNull "serviceType")
    | _ => pure ()
  match p.description with
    | .null => throw (.notNull "description")
    | .str d => checkDescription d
    | .undefined => pure ()
  match p.serviceType with
    | .str v => checkServiceType v
    | _ => pure ()
  match p.priority with
    | .str v => checkPriority (some v)
    | _ => pure ()
  match p.location with
    | .str v => checkLocation (some v)
    | _ => pure ()
  match p.status with
    | some v => checkStatus v
    | none => pure ()

/-- The new value of a non-null text column under a patch key. -/
def Field.assign (old : String) : Field → String
  | .str v => v
  | _ => old

/-- The new value of a nullable text column under a patch key. -/
def Field.assignNullable (old : Option String) : Field → Option String
  | .str v => some v
  | .null => none
  | .undefined => old

/-- The row after the keys of a patch are set; `updatedAt` moves to the
current time when some value changed. -/
def Patch.apply (p : Patch) (now : Nat) (r : ServiceRequest) : ServiceRequest :=
  let r1 : ServiceRequest :=
    { r with
      serviceType := p.serviceType.assign r.serviceType
      description := p.description.assign r.description
      priority := p.priority.assignNullable r.priority
      location := p.location.assignNullable r.location
      status := p.status.getD r.status }
  if r1 = r then r else { r1 with updatedAt := now }

/-- The statement `UPDATE ServiceRequests SET ... WHERE id = ?` and its effect
on the table. -/
def Store.updateRequest (s : Store) (id : Nat) (f : ServiceRequest → ServiceRequest) : Store :=
  { s with requests := s.requests.map (fun r => if r.id == id then f r else r) }

/-- The call `request.update(patch)` on a loaded instance: validate the keys
present, then write them to the row with the instance's id.  Returns the
instance after the update. -/
def ServiceRequest.update (s : Store) (now : Nat) (request : ServiceRequest) (p : Patch) :
    Except StoreError (ServiceRequest × Store) := do
  p.check
  pure (p.apply now request, s.updateRequest request.id (p.apply now))

/-- The call `request.destroy()`: the row is deleted and, through the
`onDelete: 'CASCADE'` foreign key of `StatusTracking.requestId`, so are its
ledger rows. -/
def ServiceRequest.destroy (s : Store) (id : Nat) : Store :=
  { s with
    requests := s.requests.filter (fun r => r.id != id)
    tracking := s.tracking.filter (fun t => t.requestId != id) }

/-! ## HTTP responses -/

/-- The `data` object of the 201 response of `POST /api/requests`. -/
structure CreatedData where
  id : Nat
  userId : Nat
  serviceType : String
  description : String
  priority : Option String
  status : String
  createdAt : Nat
  deriving DecidableEq, Repr

/-- One element of `data` in the response of `GET /api/status/history/:requestId`.
The handler reads `update._id` and `update.createdAt`; a `StatusTracking`
instance has neither attribute, so both are `undefined` and `id` and
`timestamp` are absent from the JSON. -/
structure HistoryItem where
  id : Option Nat
  status : String
  assignedTo : Option String
  notes : Option String
  timestamp : Option Nat
  deriving DecidableEq, Repr

/-- One element of `data` in the response of `GET /api/requests`. -/
structure ListItem where
  id : Nat
  serviceType : String
  description : String
  priority : Option String
  status : String
  location : Option String
  createdAt : Nat
  updatedAt : Nat
  deriving DecidableEq, Repr

/-- The `user` object of the 201 response of `POST /api/auth/register`. -/
structure RegisteredUser where
  id : Nat
  username : String
  email : String
  deriving DecidableEq, Repr

/-- The `user` object of the 200 response of `POST /api/auth/login`. -/
structure LoggedInUser where
  id : Nat
  username : String
  email : String
  phone : Option String
  address : Option String
  deriving DecidableEq, Repr

/-- The `latestUpdate` object of `GET /api/status/current/:requestId`. -/
structure LatestUpdate where
  status : String
  assignedTo : Option String
  notes : Option String
  timestamp : Option Nat
  deriving DecidableEq, Repr

/-- The JSON bodies the handlers send. -/
inductive Body where
  /-- Object `(error, required)` of the 400 responses. -/
  | missingFields (error : String) (required : List String)
  /-- Object `(error, message?)` of the 404 responses; the 401, 403 and 409
  responses of the identity layer are JSON objects of the same shape. -/
  | notFound (error : String) (message : Option String)
  /-- Object `(error, message: error.message)` of the `catch` blocks. -/
  | failure (error : String) (cause : StoreError)
  /-- Body of a successful `POST /api/requests`. -/
  | created (message : String) (data : CreatedData)
  /-- Body of a successful `GET /api/requests/:id`. -/
  | fetched (data : ServiceRequest)
  /-- Body of a successful `PUT /api/requests/:id`. -/
  | updated (message : String) (data : ServiceRequest)
  /-- Body of a successful `DELETE /api/requests/:id`. -/
  | deleted (message : String) (deletedId : Nat)
  /-- Body of a successful `POST /api/status/track`; `timestamp` is
  `statusUpdate.createdAt`. -/
  | tracked (message : String) (trackingId requestId : Nat) (status : String)
      (timestamp : Option Nat)
  /-- Body of a successful `GET /api/status/history/:requestId`. -/
  | history (message : String) (data : List HistoryItem)
  /-- Body of a successful `GET /api/status/current/:requestId`. -/
  | current (requestId : Nat) (currentStatus : String) (lastUpdated : Nat)
      (latestUpdate : Option LatestUpdate)
  /-- Body of a successful `GET /api/requests`. -/
  | listed (message : String) (data : List ListItem)
  /-- Body of a successful `POST /api/auth/register`. -/
  | registered (message : String) (token : String) (userId : Nat) (user : RegisteredUser)
  /-- Body of a successful `POST /api/auth/login`. -/
  | loggedIn (message : String) (token : String) (userId : Nat) (user : LoggedInUser)
  deriving DecidableEq, Repr

/-- An HTTP response: status code and JSON body. -/
structure Response where
  status : Nat
  body : Body
  deriving DecidableEq, Repr

/-! ## `routes/requests.js` -/

/-- Body of `POST /api/requests`.  Only the first four keys are destructured
by the handler; `status` stands for any further key a client may send. -/
structure CreateBody where
  serviceType : Field
  description : Field
  priority : Field := .undefined
  location : Field := .undefined
  status : Field := .undefined
  deriving DecidableEq, Repr

/-- The `catch` block of `POST /api/requests`. -/
def postRequestCatch (e : StoreError) : Response :=
  { status := 500, body := .failure "Failed to create service request" e }

/-- Handler `router.post('/')` of `routes/requests.js`: CreateRequest. -/
def postRequest (s : Store) (now userId : Nat) (b : CreateBody) : Response × Store :=
  match b.serviceType, b.description with
  | .str serviceType, .str description =>
    if serviceType = "" ∨ description = "" then
      ({ status := 400,
         body := .missingFields "Missing required fields" ["serviceType", "description"] }, s)
    else
      match ServiceRequest.create s now userId serviceType description
          (some (b.priority.orDefault "Medium")) b.location.orNull with
      | .error e => (postRequestCatch e, s)
      | .ok (r, s1) =>
        ({ status := 201,
           body := .created "Service request created successfully"
             { id := r.id, userId := r.userId, serviceType := r.serviceType,
               description := r.description, priority := r.priority,
               status := r.status, createdAt := r.createdAt } }, s1)
  | _, _ =>
    ({ status := 400,
       body := .missingFields "Missing required fields" ["serviceType", "description"] }, s)

/-- The object the handler of `GET /api/requests` builds from a row. -/
def listItem (req : ServiceRequest) : ListItem :=
  { id := req.id, serviceType := req.serviceType, description := req.description,
    priority := req.priority, status := req.status, location := req.location,
    createdAt := req.createdAt, updatedAt := req.updatedAt }

/-- The `catch` block of `GET /api/requests`. -/
def getRequestsCatch (e : StoreError) : Response :=
  { status := 500, body := .failure "Failed to fetch service requests" e }

/-- Handler `router.get('/')` of `routes/requests.js`: ListRequests.  The
table is queried with `order: [['createdAt', 'DESC']]`. -/
def getRequests (s : Store) (userId : Nat) : Response :=
  match ServiceRequest.findAll s userId "createdAt" with
  | .error e => getRequestsCatch e
  | .ok requests =>
    { status := 200,
      body := .listed ("Retrieved " ++ toString requests.length ++ " service requests")
        (requests.map listItem) }

/-- Handler `router.get('/:id')` of `routes/requests.js`: GetRequest. -/
def getRequest (s : Store) (userId id : Nat) : Response :=
  match ServiceRequest.findOne s id userId with
  | none =>
    { status := 404,
      body := .notFound "Service request not found"
        (some "The requested service request does not exist or you do not have access") }
  | some request => { status := 200, body := .fetched request }

/-- The `catch` block of `PUT /api/requests/:id`. -/
def putRequestCatch (e : StoreError) : Response :=
  { status := 500, body := .failure "Failed to update service request" e }

/-- Handler `router.put('/:id')` of `routes/requests.js`: UpdateRequestFields.
The patch carries the four destructured keys; `status` is never part of it. -/
def putRequest (s : Store) (now userId id : Nat) (serviceType description priority location : Field) :
    Response × Store :=
  match ServiceRequest.findOne s id userId with
  | none =>
    ({ status := 404,
       body := .notFound "Service request not found"
         (some "Cannot update a request that does not exist") }, s)
  | some request =>
    match ServiceRequest.update s now request
        { serviceType := serviceType, description := description,
          priority := priority, location := location } with
    | .error e => (putRequestCatch e, s)
    | .ok (r, s1) =>
      ({ status := 200, body := .updated "Service request updated successfully" r }, s1)

/-- Handler `router.delete('/:id')` of `routes/requests.js`: DeleteRequest. -/
def deleteRequest (s : Store) (userId id : Nat) : Response × Store :=
  match ServiceRequest.findOne s id userId with
  | none =>
    ({ status := 404,
       body := .notFound "Service request not found"
         (some "Cannot delete a request that does not exist") }, s)
  | some request =>
    ({ status := 200, body := .deleted "Service request deleted successfully" id },
     ServiceRequest.destroy s request.id)

/-! ## `routes/status.js` -/

/-- Body of `POST /api/status/track`. -/
structure TrackBody where
  requestId : Option Nat
  status : Field
  assignedTo : Field := .undefined
  notes : Field := .undefined
  deriving DecidableEq, Repr

/-- The `catch` block of `POST /api/status/track`. -/
def postTrackCatch (e : StoreError) : Response :=
  { status := 500, body := .failure "Failed to track status" e }

/-- The 400 response of `POST /api/status/track`. -/
def postTrackMissing : Response :=
  { status := 400, body := .missingFields "Missing required fields" ["requestId", "status"] }

/-- The 404 response of `POST /api/status/track`. -/
def postTrackNotFound : Response :=
  { status := 404,
    body := .notFound "Service request not found" (some "You do not have access to this request") }

/-- Handler `router.post('/track')` of `routes/status.js`:
RecordStatusTransition.  The required-field test comes first, then the
ownership lookup, then the insert into the ledger, then the update of the
request row. -/
def postTrack (s : Store) (now userId : Nat) (b : TrackBody) : Response × Store :=
  match b.requestId, b.status with
  | some requestId, .str status =>
    if requestId = 0 ∨ status = "" then (postTrackMissing, s)
    else
      match ServiceRequest.findOne s requestId userId with
      | none => (postTrackNotFound, s)
      | some request =>
        match StatusTracking.create s requestId status b.assignedTo.orNull b.notes.orNull with
        | .error e => (postTrackCatch e, s)
        | .ok (statusUpdate, s1) =>
          match ServiceRequest.update s1 now request { status := some status } with
          | .error e => (postTrackCatch e, s1)
          | .ok (_, s2) =>
            ({ status := 201,
               body := .tracked "Status update recorded successfully" statusUpdate.id
                 requestId status none }, s2)
  | _, _ => (postTrackMissing, s)

/-- The `catch` block of `GET /api/status/history/:requestId`. -/
def getHistoryCatch (e : StoreError) : Response :=
  { status := 500, body := .failure "Failed to fetch status history" e }

/-- Handler `router.get('/history/:requestId')` of `routes/status.js`:
GetStatusHistory.  The ledger is queried with `order: [['createdAt', 'DESC']]`. -/
def getHistory (s : Store) (userId requestId : Nat) : Response :=
  match ServiceRequest.findOne s requestId userId with
  | none => { status := 404, body := .notFound "Service request not found" none }
  | some _ =>
    match StatusTracking.findAll s requestId "createdAt" with
    | .error e => getHistoryCatch e
    | .ok history =>
      { status := 200,
        body := .history ("Retrieved " ++ toString history.length ++ " status updates")
          (history.map (fun update =>
            { id := none, status := update.status, assignedTo := update.assignedTo,
              notes := update.notes, timestamp := none })) }

/-- The `catch` block of `GET /api/status/current/:requestId`. -/
def getCurrentCatch (e : StoreError) : Response :=
  { status := 500, body := .failure "Failed to fetch current status" e }

/-- Handler `router.get('/current/:requestId')` of `routes/status.js`:
GetLatestStatus.  The ledger is queried with `order: [['createdAt', 'DESC']]`. -/
def getCurrent (s : Store) (userId requestId : Nat) : Response :=
  match ServiceRequest.findOne s requestId userId with
  | none => { status := 404, body := .notFound "Service request not found" none }
  | some request =>
    match StatusTracking.findOne s requestId "createdAt" with
    | .error e => getCurrentCatch e
    | .ok latestStatus =>
      { status := 200,
        body := .current requestId request.status request.updatedAt
          (latestStatus.map (fun l =>
            { status := l.status, assignedTo := l.assignedTo, notes := l.notes,
              timestamp := none })) }

/-! ## `middleware/auth.js` -/

/-- What `jwt.verify(token, secret)` does: it returns the decoded payload
(`id`, `email`), throws an error named `TokenExpiredError`, or throws another
error. -/
inductive JwtOutcome where
  | decoded (id : Nat) (email : String)
  | expired
  | failed
  deriving DecidableEq, Repr

/-- The parts of the Express request the middleware reads and writes: the
`Authorization` header, `req.userId` and `req.userEmail`. -/
structure AuthRequest where
  authorization : Option String
  userId : Option Nat := none
  userEmail : Option String := none
  deriving DecidableEq, Repr

/-- JavaScript `s.split(sep)` for a one-character separator, on the characters
of `s`: the pieces between the occurrences of `sep`, empty pieces included. -/
def jsSplit (sep : Char) : List Char → List (List Char)
  | [] => [[]]
  | c :: cs =>
    if c = sep then [] :: jsSplit sep cs
    else
      match jsSplit sep cs with
      | [] => [[c]]
      | p :: ps => (c :: p) :: ps

/-- The expression `header.split(' ')[1]`: `none` stands for `undefined`. -/
def secondPart (header : String) : Option String :=
  ((jsSplit ' ' header.data)[1]?).map String.mk

/-- The expression `req.headers.authorization?.split(' ')[1]`. -/
def AuthRequest.token (req : AuthRequest) : Option String :=
  req.authorization.bind secondPart

/-- What the middleware does with a request: it calls `next()` on the request
as it is by then, or it sends a response and `next` is never called. -/
inductive Middleware where
  | next (req : AuthRequest)
  | respond (response : Response)
  deriving DecidableEq, Repr

/-- The 401 response for a missing token. -/
def noTokenResponse : Response :=
  { status := 401,
    body := .notFound "No token provided" (some "Authentication required. Please log in.") }

/-- The 401 response for an expired token. -/
def tokenExpiredResponse : Response :=
  { status := 401,
    body := .notFound "Token expired" (some "Your session has expired. Please log in again.") }

/-- The 403 response for any other verification failure. -/
def invalidTokenResponse : Response :=
  { status := 403,
    body := .notFound "Invalid token" (some "Authentication failed. Please log in again.") }

/-- Middleware `verifyToken` of `middleware/auth.js`; `jwtVerify` is
`jwt.verify` with the secret of the server.  A token that is `undefined` or
the empty string is falsy. -/
def verifyToken (jwtVerify : String → JwtOutcome) (req : AuthRequest) : Middleware :=
  match req.token with
  | none => .respond noTokenResponse
  | some token =>
    if token = "" then .respond noTokenResponse
    else
      match jwtVerify token with
      | .decoded id email => .next { req with userId := some id, userEmail := some email }
      | .expired => .respond tokenExpiredResponse
      | .failed => .respond invalidTokenResponse

/-! ## `models/User.js` and `routes/auth.js` -/

/-- A row of the `Users` table (`models/User.js`, with `timestamps: true`);
`password` holds the bcrypt hash. -/
structure User where
  id : Nat
  username : String
  email : String
  password : String
  phone : Option String
  address : Option String
  role : String
  createdAt : Nat
  updatedAt : Nat
  deriving DecidableEq, Repr

/-- The `Users` table in insertion order and its auto-increment counter. -/
structure UserTable where
  users : List User
  nextUserId : Nat
  deriving DecidableEq, Repr

/-- The `Users` table after `sequelize.sync()` on an empty database. -/
def UserTable.empty : UserTable := { users := [], nextUserId := 1 }

/-- The library functions the identity routes call: `validator`'s `isEmail`
(behind `validate: isEmail`), `bcryptjs.hash(password, 10)` and
`jwt.sign` with the payload `(id, email)`. -/
structure AuthLibs where
  isEmail : String → Bool
  hash : String → String
  sign : Nat → String → String

/-- Body of `POST /api/auth/register`. -/
structure RegisterBody where
  username : Field
  email : Field
  password : Field
  phone : Field := .undefined
  address : Field := .undefined
  deriving DecidableEq, Repr

/-- The call `User.findOne` with `where: (email) OR (username)`. -/
def User.findByEmailOrUsername (t : UserTable) (email username : String) : Option User :=
  t.users.find? (fun u => u.email == email || u.username == username)

/-- The call `User.create` with the five values the handler passes.  Model
validation (`len [3, 50]`, `isEmail`, `len [6, 255]`) runs on the values as
given; the `beforeCreate` hook then replaces the password by its hash; the
insert checks the column widths and the two unique indexes.  `role` takes its
default `'user'`. -/
def User.create (libs : AuthLibs) (t : UserTable) (now : Nat) (username email password : String)
    (phone address : Option String) : Except StoreError (User × UserTable) := do
  if ¬ (3 ≤ username.length ∧ username.length ≤ 50) then
    throw (.validation "Username must be between 3 and 50 characters")
  if ¬ libs.isEmail email then throw (.validation "Invalid email format")
  if ¬ (6 ≤ password.length ∧ password.length ≤ 255) then
    throw (.validation "Password must be at least 6 characters")
  if ¬ email.length ≤ 255 then throw (.tooLong "email")
  if ¬ (libs.hash password).length ≤ 255 then throw (.tooLong "password")
  match phone with
    | some v => if ¬ v.length ≤ 20 then throw (.tooLong "phone")
    | none => pure ()
  if t.users.any (fun u => u.username == username) then throw (.uniqueViolation "username")
  if t.users.any (fun u => u.email == email) then throw (.uniqueViolation "email")
  let u : User :=
    { id := t.nextUserId, username := username, email := email,
      password := libs.hash password, phone := phone, address := address, role := "user",
      createdAt := now, updatedAt := now }
  pure (u, { users := t.users ++ [u], nextUserId := t.nextUserId + 1 })

/-- The `catch` block of `POST /api/auth/register`. -/
def postRegisterCatch (e : StoreError) : Response :=
  { status := 500, body := .failure "Registration failed" e }

/-- The 400 response of `POST /api/auth/register`. -/
def postRegisterMissing : Response :=
  { status := 400,
    body := .missingFields "Missing required fields" ["username", "email", "password"] }

/-- The 409 response of `POST /api/auth/register`. -/
def postRegisterConflict : Response :=
  { status := 409,
    body := .notFound "User already exists" (some "Email or username is already registered") }

/-- Handler `router.post('/register')` of `routes/auth.js`.  The required-field
test comes first, then the lookup of an existing user, then the insert. -/
def postRegister (libs : AuthLibs) (t : UserTable) (now : Nat) (b : RegisterBody) :
    Response × UserTable :=
  match b.username, b.email, b.password with
  | .str username, .str email, .str password =>
    if username = "" ∨ email = "" ∨ password = "" then (postRegisterMissing, t)
    else
      match User.findByEmailOrUsername t email username with
      | some _ => (postRegisterConflict, t)
      | none =>
        match User.create libs t now username email password
            (Field.assignNullable none b.phone) (Field.assignNullable none b.address) with
        | .error e => (postRegisterCatch e, t)
        | .ok (user, t1) =>
          ({ status := 201,
             body := .registered "User registered successfully" (libs.sign user.id user.email)
               user.id { id := user.id, username := user.username, email := user.email } }, t1)
  | _, _, _ => (postRegisterMissing, t)

/-! ## Sequences of calls -/

/-- A call of one of the four mutating operations, with the caller, the clock
reading and the arguments. -/
inductive Call where
  | createRequest (now userId : Nat) (b : CreateBody)
  | updateRequestFields (now userId id : Nat) (serviceType description priority location : Field)
  | deleteRequest (userId id : Nat)
  | recordStatusTransition (now userId : Nat) (b : TrackBody)
  deriving DecidableEq, Repr

/-- The handler a call dispatches to. -/
def Call.run (s : Store) : Call → Response × Store
  | .createRequest now userId b => postRequest s now userId b
  | .updateRequestFields now userId id st d p l => putRequest s now userId id st d p l
  | .deleteRequest userId id => OnlineService.deleteRequest s userId id
  | .recordStatusTransition now userId b => postTrack s now userId b

/-- The store after a sequence of calls made one after the other on the empty
store. -/
def Store.after (calls : List Call) : Store :=
  calls.foldl (fun s c => (c.run s).2) Store.empty

/-- A store is reachable when some sequence of calls produces it. -/
def Reachable (s : Store) : Prop := ∃ calls, Store.after calls = s

/-- The ledger rows of a request, oldest first (insertion order). -/
def Store.ledger (s : Store) (requestId : Nat) : List StatusTracking :=
  s.tracking.filter (fun t => t.requestId == requestId)

/-- The status the ledger assigns to a request: that of its most recent row,
or `'Pending'` when it has none. -/
def Store.ledgerStatus (s : Store) (requestId : Nat) : String :=
  match (s.ledger requestId).getLast? with
  | some t => t.status
  | none => "Pending"

/-- The invariant of the store kept by every handler. -/
structure Store.Inv (s : Store) : Prop where
  counter : 1 ≤ s.nextRequestId
  idPos : ∀ r ∈ s.requests, 1 ≤ r.id
  idLt : ∀ r ∈ s.requests, r.id < s.nextRequestId
  idNodup : (s.requests.map (fun r => r.id)).Nodup
  ledgerLt : ∀ t ∈ s.tracking, t.requestId < s.nextRequestId
  consistent : ∀ r ∈ s.requests, r.status = s.ledgerStatus r.id

/-- The row `ServiceRequest.create` inserts. -/
def newRequest (s : Store) (now userId : Nat) (serviceType description : String)
    (priority location : Option String) : ServiceRequest :=
  { id := s.nextRequestId, userId := userId, serviceType := serviceType,
    description := description, priority := priority, location := location,
    status := "Pending", completedAt := none, createdAt := now, updatedAt := now }

/-- The store after `ServiceRequest.create` inserted row `r`. -/
def Store.insertRequest (s : Store) (r : ServiceRequest) : Store :=
  { s with requests := s.requests ++ [r], nextRequestId := s.nextRequestId + 1 }

/-- The row `StatusTracking.create` inserts. -/
def newTracking (s : Store) (requestId : Nat) (status : String)
    (assignedTo notes : Option String) : StatusTracking :=
  { id := s.nextTrackingId, requestId := requestId, status := status,
    assignedTo := assignedTo, notes := notes }

/-- The store after `StatusTracking.create` inserted row `t`. -/
def Store.insertTracking (s : Store) (t : StatusTracking) : Store :=
  { s with tracking := s.tracking ++ [t], nextTrackingId := s.nextTrackingId + 1 }

/-- The store after a successful `POST /api/status/track`. -/
def Store.tracked (s : Store) (now : Nat) (request : ServiceRequest) (t : StatusTracking) : Store :=
  (s.insertTracking t).updateRequest request.id (Patch.apply { status := some t.status } now)

/-- The 201 response of `POST /api/status/track`. -/
def postTrackCreated (trackingId requestId : Nat) (status : String) : Response :=
  { status := 201,
    body := .tracked "Status update recorded successfully" trackingId requestId status none }

/-- The 201 response of `POST /api/requests` for the inserted row `r`. -/
def postRequestCreated (r : ServiceRequest) : Response :=
  { status := 201,
    body := .created "Service request created successfully"
      { id := r.id, userId := r.userId, serviceType := r.serviceType,
        description := r.description, priority := r.priority,
        status := r.status, createdAt := r.createdAt } }

/-! ## The handler of `POST /api/status/track` step by step -/

/-- Control points of one run of `router.post('/track')`.  The handler is an
`async` function: at each `await` it yields, and other handlers may run on the
store before it resumes. -/
inductive TrackPc where
  /-- Before the required-field test and `await ServiceRequest.findOne`. -/
  | start
  /-- After the lookup, before `await StatusTracking.create`. -/
  | found (requestId : Nat) (status : String) (request : ServiceRequest)
  /-- After the insert into the ledger, before `await request.update`. -/
  | inserted (requestId : Nat) (status : String) (request : ServiceRequest)
      (statusUpdate : StatusTracking)
  /-- The response has been sent. -/
  | done (response : Response)
  deriving DecidableEq, Repr

/-- One step of the handler of `POST /api/status/track`: the code between two
consecutive `await`s, run on the store as it is at that moment. -/
def postTrackStep (now userId : Nat) (b : TrackBody) : TrackPc × Store → TrackPc × Store
  | (.start, s) =>
    match b.requestId, b.status with
    | some requestId, .str status =>
      if requestId = 0 ∨ status = "" then (.done postTrackMissing, s)
      else
        match ServiceRequest.findOne s requestId userId with
        | none => (.done postTrackNotFound, s)
        | some request => (.found requestId status request, s)
    | _, _ => (.done postTrackMissing, s)
  | (.found requestId status request, s) =>
    match StatusTracking.create s requestId status b.assignedTo.orNull b.notes.orNull with
    | .error e => (.done (postTrackCatch e), s)
    | .ok (statusUpdate, s1) => (.inserted requestId status request statusUpdate, s1)
  | (.inserted requestId status request statusUpdate, s) =>
    match ServiceRequest.update s now request { status := some status } with
    | .error e => (.done (postTrackCatch e), s)
    | .ok (_, s2) =>
      (.done { status := 201,
               body := .tracked "Status update recorded successfully" statusUpdate.id
                 requestId status none }, s2)
  | (.done response, s) => (.done response, s)

/-! ## Concrete inputs and stores used to evaluate the handlers -/

/-- Body of the creation of the scenario of the specification: a repair
request with high priority. -/
def repairBody : CreateBody :=
  { serviceType := .str "Repair", description := .str "Device broken, needs urgent fix",
    priority := .str "High" }

/-- Body of the first transition of the scenario: to `'Assigned'`, assignee
Jane. -/
def assignBody : TrackBody :=
  { requestId := some 1, status := .str "Assigned", assignedTo := .str "Jane" }

/-- The store after user 42 created one request (it gets id 1). -/
def oneRequest : Store := Store.after [.createRequest 100 42 repairBody]

/-- The store after user 42 created request 1 and recorded its transition to
`'Assigned'`. -/
def assignedStore : Store :=
  Store.after [.createRequest 100 42 repairBody, .recordStatusTransition 101 42 assignBody]

/-- The row of request 1 of the scenario, with the given status and time of
last update. -/
def repairRequest (status : String) (updatedAt : Nat) : ServiceRequest :=
  { id := 1, userId := 42, serviceType := "Repair",
    description := "Device broken, needs urgent fix", priority := some "High",
    location := none, status := status, completedAt := none,
    createdAt := 100, updatedAt := updatedAt }

/-- A string of `n` letters `a`. -/
def letters (n : Nat) : String := String.mk (List.replicate n 'a')

/-- Body of a transition to `'Assigned'` whose assignee label has 256
characters. -/
def longAssigneeBody : TrackBody :=
  { requestId := some 1, status := .str "Assigned", assignedTo := .str (letters 256) }

/-- Body of a transition whose notes have 501 characters. -/
def longNotesBody : TrackBody :=
  { requestId := some 1, status := .str "Completed", notes := .str (letters 501) }

/-- Body of a transition to `'Completed'` with notes of exactly 500 characters
and an assignee label of 256 characters. -/
def wideAssigneeBody : TrackBody :=
  { requestId := some 1, status := .str "Completed", assignedTo := .str (letters 256),
    notes := .str (letters 500) }

/-- Body of a creation with an enumerated service type, no priority, a
description of exactly 10 characters and a location of 256 characters. -/
def longLocationBody : CreateBody :=
  { serviceType := .str "Repair", description := .str (letters 10),
    location := .str (letters 256) }

/-- Body of a creation that also carries a `status` key. -/
def statusSmugglingBody : CreateBody :=
  { serviceType := .str "Support", description := .str "Printer does not print",
    location := .str "Room 12", status := .str "Completed" }

/-- The store after user 42 created request 1, user 7 request 2 and user 42
request 3, in this order and at increasing times. -/
def threeRequests : Store :=
  Store.after [.createRequest 100 42 repairBody, .createRequest 105 7 statusSmugglingBody,
    .createRequest 110 42 repairBody]

/-- Body of the second transition of the scenario: back to `'Pending'`. -/
def revertBody : TrackBody := { requestId := some 1, status := .str "Pending" }

/-- The store at the end of the scenario of the specification: user 42 created
request 1 and recorded its transitions to `'Assigned'` and then to
`'Pending'`. -/
def revertedStore : Store :=
  Store.after [.createRequest 100 42 repairBody, .recordStatusTransition 101 42 assignBody,
    .recordStatusTransition 102 42 revertBody]

/-- A stand-in for `jwt.verify` used to evaluate the middleware: the token
`good` decodes to user 42, the token `old` has expired, every other token is
rejected. -/
def demoVerify (token : String) : JwtOutcome :=
  if token = "good" then .decoded 42 "ann@example.com"
  else if token = "old" then .expired
  else .failed

/-- Stand-ins for the library functions of the identity routes, used to
evaluate the registration handler. -/
def demoLibs : AuthLibs :=
  { isEmail := fun e => e.data.contains '@'
    hash := fun p => "hashed:" ++ p
    sign := fun id email => "token:" ++ toString id ++ ":" ++ email }

/-- A registration with all required fields. -/
def annBody : RegisterBody :=
  { username := .str "ann", email := .str "ann@example.com", password := .str "TestPass123" }

/-- The `Users` table after the registration of `annBody`. -/
def oneUser : UserTable := (postRegister demoLibs UserTable.empty 50 annBody).2

/-! ## `routes/auth.js`: login -/

/-- A value of the JSON body of a request as the handler sees it after
destructuring `req.body`: `undefined` when the key is absent, otherwise any
JSON value.  The handler tests a number only against zero, so the integers
stand for all numbers; `composite` is an array or an object. -/
inductive JsonValue where
  | undefined
  | null
  | bool (b : Bool)
  | number (n : Int)
  | str (s : String)
  | composite
  deriving DecidableEq, Repr

/-- JavaScript truthiness, the test behind `!email` and `!password`. -/
def JsonValue.truthy : JsonValue → Bool
  | .undefined => false
  | .null => false
  | .bool b => b
  | .number n => n != 0
  | .str s => s != ""
  | .composite => true

/-- Body of `POST /api/auth/login`. -/
structure LoginBody where
  email : JsonValue
  password : JsonValue
  deriving DecidableEq, Repr

/-- The library calls behind the login handler whose outcome the repository
does not fix. -/
structure LoginLibs where
  /-- The call `bcryptjs.compare(plain, hash)` on two strings: it resolves to a
  boolean or rejects. -/
  compare : String → String → Except StoreError Bool
  /-- The call `User.findOne` with `where: (email)` for an `email` that is not a
  string: Sequelize and MySQL convert the value, read it as operators, or
  reject it. -/
  findByValue : UserTable → JsonValue → Except StoreError (Option User)

/-- The call `User.findOne` with `where: (email)` for a string. -/
def User.findByEmail (t : UserTable) (email : String) : Option User :=
  t.users.find? (fun u => u.email == email)

/-- The call `User.findOne` with `where: (email)` of the login handler. -/
def User.findOne (login : LoginLibs) (t : UserTable) :
    JsonValue → Except StoreError (Option User)
  | .str email => .ok (User.findByEmail t email)
  | v => login.findByValue t v

/-- Method `User.prototype.comparePassword` of `models/User.js`:
`bcryptjs.compare(plainPassword, this.password)`, which rejects with
`Illegal arguments` when `plainPassword` is not a string. -/
def User.comparePassword (login : LoginLibs) (user : User) :
    JsonValue → Except StoreError Bool
  | .str plain => login.compare plain user.password
  | _ => .error .illegalArguments

/-- The 400 response of `POST /api/auth/login`. -/
def postLoginMissing : Response :=
  { status := 400,
    body := .notFound "Missing credentials" (some "Email and password are required") }

/-- The 401 response of `POST /api/auth/login`, sent both when no user has the
email and when the password does not match. -/
def postLoginInvalid : Response :=
  { status := 401,
    body := .notFound "Invalid credentials" (some "Email or password is incorrect") }

/-- The `catch` block of `router.post('/login')`. -/
def postLoginCatch (e : StoreError) : Response :=
  { status := 500, body := .failure "Login failed" e }

/-- Handler `router.post('/login')` of `routes/auth.js`.  The handler only
reads the `Users` table. -/
def postLogin (login : LoginLibs) (libs : AuthLibs) (t : UserTable) (b : LoginBody) :
    Response :=
  if !b.email.truthy || !b.password.truthy then postLoginMissing
  else
    match User.findOne login t b.email with
    | .error e => postLoginCatch e
    | .ok none => postLoginInvalid
    | .ok (some user) =>
      match User.comparePassword login user b.password with
      | .error e => postLoginCatch e
      | .ok false => postLoginInvalid
      | .ok true =>
        { status := 200,
          body := .loggedIn "Login successful" (libs.sign user.id user.email) user.id
            { id := user.id, username := user.username, email := user.email,
              phone := user.phone, address := user.address } }

/-- Stand-ins for the library calls of the login handler that go with
`demoLibs`. -/
def demoLogin : LoginLibs :=
  { compare := fun plain hash => .ok (hash == "hashed:" ++ plain)
    findByValue := fun _ _ => .ok none }

/-! ## `frontend/js/auth.js`: `validateEmail` -/

/-- The classes of characters the pattern of `validateEmail` tells apart:
the whitespace of `\s`, the character `@`, the full stop, and the rest. -/
inductive CharClass where
  | space
  | atSign
  | dot
  | other
  deriving DecidableEq, Repr

/-- The characters matched by `\s` in a JavaScript regular expression: tab,
line feed, vertical tab, form feed, carriage return, space, no-break space,
U+1680, U+2000 to U+200A, the line and paragraph separators, U+202F, U+205F,
U+3000 and U+FEFF. -/
def isJsSpace (c : Char) : Bool :=
  decide (c.toNat ∈ [9, 10, 11, 12, 13, 32, 160, 5760, 8232, 8233, 8239, 8287, 12288, 65279]) ||
    (decide (8192 ≤ c.toNat) && decide (c.toNat ≤ 8202))

/-- The class of a character. -/
def classify (c : Char) : CharClass :=
  if c = '@' then .atSign
  else if c = '.' then .dot
  else if isJsSpace c then .space
  else .other

/-- The character class `[^\s@]`: a full stop or a character of the rest. -/
def notSpaceAt : RegularExpression CharClass := .plus (.char .dot) (.char .other)

/-- The pattern `P+`: `P` followed by `P*`. -/
def oneOrMore (P : RegularExpression CharClass) : RegularExpression CharClass :=
  .comp P (.star P)

/-- The pattern between `^` and `$` in `emailRegex`:
`[^\s@]+ @ [^\s@]+ \. [^\s@]+`. -/
def emailRegex : RegularExpression CharClass :=
  .comp (oneOrMore notSpaceAt)
    (.comp (.char .atSign)
      (.comp (oneOrMore notSpaceAt) (.comp (.char .dot) (oneOrMore notSpaceAt))))

/-- Function `validateEmail` of `frontend/js/auth.js`: `emailRegex.test(email)`.
The pattern is anchored at both ends, so the whole string has to match. -/
def validateEmail (email : String) : Bool :=
  emailRegex.rmatch (email.data.map classify)

/-- The property of a string in the words of the specification: no whitespace
character, exactly one `@`, at least one character before it, and in the part
after it a full stop that is neither its first nor its last character. -/
def EmailShape (email : String) : Prop :=
  (∀ c ∈ email.data, isJsSpace c = false) ∧
  email.data.count '@' = 1 ∧
  ∃ before after : List Char, email.data = before ++ '@' :: after ∧ before ≠ [] ∧
    ∃ i, 0 < i ∧ i + 1 < after.length ∧ after[i]? = some '.'

/-! ## Basic facts about the store operations -/

theorem findOne_some {s : Store} {id userId : Nat} {r : ServiceRequest}
    (h : ServiceRequest.findOne s id userId = some r) :
    r ∈ s.requests ∧ r.id = id ∧ r.userId = userId := by
  unfold ServiceRequest.findOne at h
  refine ⟨List.mem_of_find?_eq_some h, ?_⟩
  have := List.find?_some h
  simpa using this

theorem apply_id (p : Patch) (now : Nat) (r : ServiceRequest) :
    (p.apply now r).id = r.id := by
  unfold Patch.apply
  simp only
  split <;> rfl

theorem apply_userId (p : Patch) (now : Nat) (r : ServiceRequest) :
    (p.apply now r).userId = r.userId := by
  unfold Patch.apply
  simp only
  split <;> rfl

theorem apply_status (p : Patch) (now : Nat) (r : ServiceRequest) :
    (p.apply now r).status = p.status.getD r.status := by
  unfold Patch.apply
  simp only
  split
  · next h =>
    have := congrArg ServiceRequest.status h
    simpa using this.symm
  · rfl

theorem createdAt_not_column : "createdAt" ∉ StatusTracking.columns := by decide

theorem request_create_cases (s : Store) (now userId : Nat) (serviceType description : String)
    (priority location : Option String) :
    (∃ e, ServiceRequest.create s now userId serviceType description priority location = .error e) ∨
    ServiceRequest.create s now userId serviceType description priority location =
      .ok (newRequest s now userId serviceType description priority location,
        s.insertRequest (newRequest s now userId serviceType description priority location)) := by
  unfold ServiceRequest.create
  cases h1 : checkDescription description <;>
  cases h2 : checkServiceType serviceType <;>
  cases h3 : checkPriority priority <;>
  cases h4 : checkLocation location <;>
  simp [bind, Except.bind, pure, Except.pure, newRequest, Store.insertRequest]

theorem request_create_ok_iff (s : Store) (now userId : Nat) (serviceType description : String)
    (priority location : Option String) :
    (ServiceRequest.create s now userId serviceType description priority location =
      .ok (newRequest s now userId serviceType description priority location,
        s.insertRequest (newRequest s now userId serviceType description priority location))) ↔
    (checkDescription description = .ok () ∧ checkServiceType serviceType = .ok () ∧
      checkPriority priority = .ok () ∧ checkLocation location = .ok ()) := by
  unfold ServiceRequest.create
  cases h1 : checkDescription description <;>
  cases h2 : checkServiceType serviceType <;>
  cases h3 : checkPriority priority <;>
  cases h4 : checkLocation location <;>
  simp [bind, Except.bind, pure, Except.pure, newRequest, Store.insertRequest]

theorem tracking_create_cases (s : Store) (requestId : Nat) (status : String)
    (assignedTo notes : Option String) :
    (∃ e, StatusTracking.create s requestId status assignedTo notes = .error e ∧
      (checkNotes notes = .error e ∨ checkStatus status = .error e ∨
        checkAssignedTo assignedTo = .error e)) ∨
    (StatusTracking.create s requestId status assignedTo notes =
      .ok (newTracking s requestId status assignedTo notes,
        s.insertTracking (newTracking s requestId status assignedTo notes)) ∧
      checkNotes notes = .ok () ∧ checkStatus status = .ok () ∧
      checkAssignedTo assignedTo = .ok ()) := by
  unfold StatusTracking.create
  cases h1 : checkNotes notes <;>
  cases h2 : checkStatus status <;>
  cases h3 : checkAssignedTo assignedTo <;>
  simp [bind, Except.bind, pure, Except.pure, newTracking, Store.insertTracking]

theorem update_status_ok (s : Store) (now : Nat) (request : ServiceRequest)
    (status : String) (h : checkStatus status = .ok ()) :
    ServiceRequest.update s now request { status := some status } =
      .ok (Patch.apply { status := some status } now request,
        s.updateRequest request.id (Patch.apply { status := some status } now)) := by
  unfold ServiceRequest.update Patch.check
  simp [bind, Except.bind, pure, Except.pure, h]

theorem postTrack_ok {s : Store} {now userId : Nat} {b : TrackBody} {id : Nat} {S : String}
    {request : ServiceRequest}
    (hid : b.requestId = some id) (hS : b.status = .str S) (hid0 : id ≠ 0) (hS0 : S ≠ "")
    (hfind : ServiceRequest.findOne s id userId = some request)
    (hn : checkNotes b.notes.orNull = .ok ()) (hs : checkStatus S = .ok ())
    (ha : checkAssignedTo b.assignedTo.orNull = .ok ()) :
    postTrack s now userId b =
      (postTrackCreated s.nextTrackingId id S,
        s.tracked now request (newTracking s id S b.assignedTo.orNull b.notes.orNull)) := by
  have hc := tracking_create_cases s id S b.assignedTo.orNull b.notes.orNull
  rcases hc with ⟨e, -, h | h | h⟩ | ⟨hc, -⟩
  · rw [hn] at h; cases h
  · rw [hs] at h; cases h
  · rw [ha] at h; cases h
  · unfold postTrack
    simp only [hid, hS, hid0, hS0, or_self, if_false, hfind, hc]
    rw [update_status_ok _ _ _ _ hs]
    rfl

theorem postTrack_cases (s : Store) (now userId : Nat) (b : TrackBody) :
    ((postTrack s now userId b).2 = s ∧ (postTrack s now userId b).1.status ≠ 201) ∨
    ∃ id S request, b.requestId = some id ∧ b.status = .str S ∧ id ≠ 0 ∧ S ≠ "" ∧
      ServiceRequest.findOne s id userId = some request ∧
      checkNotes b.notes.orNull = .ok () ∧ checkStatus S = .ok () ∧
      checkAssignedTo b.assignedTo.orNull = .ok () ∧
      postTrack s now userId b =
        (postTrackCreated s.nextTrackingId id S,
          s.tracked now request (newTracking s id S b.assignedTo.orNull b.notes.orNull)) := by
  cases hid : b.requestId with
  | none => left; unfold postTrack; simp [hid, postTrackMissing]
  | some id =>
    cases hS : b.status with
    | undefined => left; unfold postTrack; simp [hid, hS, postTrackMissing]
    | null => left; unfold postTrack; simp [hid, hS, postTrackMissing]
    | str S =>
      by_cases h0 : id = 0 ∨ S = ""
      · left; unfold postTrack; simp [hid, hS, h0, postTrackMissing]
      · have hid0 : id ≠ 0 := fun h => h0 (Or.inl h)
        have hS0 : S ≠ "" := fun h => h0 (Or.inr h)
        cases hfind : ServiceRequest.findOne s id userId with
        | none => left; unfold postTrack; simp [hid, hS, h0, hfind, postTrackNotFound]
        | some request =>
          rcases tracking_create_cases s id S b.assignedTo.orNull b.notes.orNull with
            ⟨e, hc, -⟩ | ⟨-, hn, hs, ha⟩
          · left; unfold postTrack; simp [hid, hS, h0, hfind, hc, postTrackCatch]
          · right
            exact ⟨id, S, request, rfl, rfl, hid0, hS0, hfind, hn, hs, ha,
              postTrack_ok hid hS hid0 hS0 hfind hn hs ha⟩

theorem postRequest_cases (s : Store) (now userId : Nat) (b : CreateBody) :
    ((postRequest s now userId b).2 = s ∧ (postRequest s now userId b).1.status ≠ 201) ∨
    ∃ t d, b.serviceType = .str t ∧ b.description = .str d ∧ t ≠ "" ∧ d ≠ "" ∧
      checkDescription d = .ok () ∧ checkServiceType t = .ok () ∧
      checkPriority (some (b.priority.orDefault "Medium")) = .ok () ∧
      checkLocation b.location.orNull = .ok () ∧
      postRequest s now userId b =
        (postRequestCreated
            (newRequest s now userId t d (some (b.priority.orDefault "Medium")) b.location.orNull),
          s.insertRequest
            (newRequest s now userId t d (some (b.priority.orDefault "Medium")) b.location.orNull)) := by
  cases ht : b.serviceType with
  | undefined => left; unfold postRequest; simp [ht]
  | null => left; unfold postRequest; simp [ht]
  | str t =>
    cases hd : b.description with
    | undefined => left; unfold postRequest; simp [ht, hd]
    | null => left; unfold postRequest; simp [ht, hd]
    | str d =>
      by_cases h0 : t = "" ∨ d = ""
      · left; unfold postRequest; simp [ht, hd, h0]
      · have ht0 : t ≠ "" := fun h => h0 (Or.inl h)
        have hd0 : d ≠ "" := fun h => h0 (Or.inr h)
        rcases request_create_cases s now userId t d
            (some (b.priority.orDefault "Medium")) b.location.orNull with ⟨e, hc⟩ | hc
        · left; unfold postRequest; simp [ht, hd, h0, hc, postRequestCatch]
        · right
          have hok := (request_create_ok_iff s now userId t d
            (some (b.priority.orDefault "Medium")) b.location.orNull).1 hc
          refine ⟨t, d, rfl, rfl, ht0, hd0, hok.1, hok.2.1, hok.2.2.1, hok.2.2.2, ?_⟩
          unfold postRequest
          simp only [ht, hd, h0, if_false, hc]
          rfl

theorem putRequest_cases (s : Store) (now userId id : Nat) (st d p l : Field) :
    ((putRequest s now userId id st d p l).2 = s ∧
      (putRequest s now userId id st d p l).1.status ≠ 200) ∨
    ∃ request, ServiceRequest.findOne s id userId = some request ∧
      Patch.check { serviceType := st, description := d, priority := p, location := l } = .ok () ∧
      putRequest s now userId id st d p l =
        ({ status := 200,
           body := .updated "Service request updated successfully"
             (Patch.apply { serviceType := st, description := d, priority := p, location := l }
               now request) },
          s.updateRequest request.id
            (Patch.apply { serviceType := st, description := d, priority := p, location := l } now)) := by
  cases hfind : ServiceRequest.findOne s id userId with
  | none => left; unfold putRequest; simp [hfind]
  | some request =>
    cases hc : Patch.check { serviceType := st, description := d, priority := p, location := l } with
    | error e =>
      left; unfold putRequest ServiceRequest.update
      simp [hfind, hc, bind, Except.bind, putRequestCatch]
    | ok u =>
      right
      refine ⟨request, rfl, rfl, ?_⟩
      unfold putRequest ServiceRequest.update
      simp [hfind, hc, bind, Except.bind, pure, Except.pure]

theorem deleteRequest_cases (s : Store) (userId id : Nat) :
    ((deleteRequest s userId id).2 = s ∧ (deleteRequest s userId id).1.status ≠ 200) ∨
    ∃ request, ServiceRequest.findOne s id userId = some request ∧
      deleteRequest s userId id =
        ({ status := 200, body := .deleted "Service request deleted successfully" id },
          ServiceRequest.destroy s request.id) := by
  cases hfind : ServiceRequest.findOne s id userId with
  | none => left; unfold deleteRequest; simp [hfind]
  | some request => right; exact ⟨request, rfl, by unfold deleteRequest; simp [hfind]⟩

/-! ## The store invariant is kept by every handler -/

theorem inv_empty : Store.empty.Inv where
  counter := by simp [Store.empty]
  idPos := by simp [Store.empty]
  idLt := by simp [Store.empty]
  idNodup := by simp [Store.empty]
  ledgerLt := by simp [Store.empty]
  consistent := by simp [Store.empty]

theorem ledgerStatus_of_no_rows {s : Store} {id : Nat}
    (h : ∀ t ∈ s.tracking, t.requestId ≠ id) : s.ledger id = [] := by
  unfold Store.ledger
  rw [List.filter_eq_nil_iff]
  intro t ht
  simpa using h t ht

theorem inv_insertRequest {s : Store} (h : s.Inv) (r : ServiceRequest)
    (hid : r.id = s.nextRequestId) (hst : r.status = "Pending") : (s.insertRequest r).Inv where
  counter := by simp [Store.insertRequest]
  idPos := by
    intro x hx
    simp only [Store.insertRequest, List.mem_append, List.mem_singleton] at hx
    rcases hx with hx | rfl
    · exact h.idPos x hx
    · rw [hid]; exact h.counter
  idLt := by
    intro x hx
    simp only [Store.insertRequest, List.mem_append, List.mem_singleton] at hx
    rcases hx with hx | rfl
    · have := h.idLt x hx
      simp only [Store.insertRequest]; omega
    · simp only [Store.insertRequest]; omega
  idNodup := by
    simp only [Store.insertRequest, List.map_append, List.map_cons, List.map_nil]
    rw [List.nodup_append]
    refine ⟨h.idNodup, List.nodup_singleton _, ?_⟩
    intro a ha hb
    simp only [List.mem_singleton] at hb
    simp only [List.mem_map] at ha
    obtain ⟨x, hx, rfl⟩ := ha
    have := h.idLt x hx
    omega
  ledgerLt := by
    intro t ht
    have := h.ledgerLt t ht
    simp only [Store.insertRequest]; omega
  consistent := by
    intro x hx
    simp only [Store.insertRequest, List.mem_append, List.mem_singleton] at hx
    rcases hx with hx | rfl
    · exact h.consistent x hx
    · have hnil : s.ledger x.id = [] := by
        apply ledgerStatus_of_no_rows
        intro t ht
        have := h.ledgerLt t ht
        omega
      show x.status = match (s.ledger x.id).getLast? with
        | some t => t.status
        | none => "Pending"
      rw [hnil, hst]
      rfl

theorem inv_updateRequest {s : Store} (h : s.Inv) (id : Nat)
    (f : ServiceRequest → ServiceRequest) (hfid : ∀ r, (f r).id = r.id)
    (hfst : ∀ r, (f r).status = r.status) : (s.updateRequest id f).Inv where
  counter := h.counter
  idPos := by
    intro x hx
    simp only [Store.updateRequest, List.mem_map] at hx
    obtain ⟨r, hr, rfl⟩ := hx
    split
    · rw [hfid]; exact h.idPos r hr
    · exact h.idPos r hr
  idLt := by
    intro x hx
    simp only [Store.updateRequest, List.mem_map] at hx
    obtain ⟨r, hr, rfl⟩ := hx
    show _ < s.nextRequestId
    split
    · rw [hfid]; exact h.idLt r hr
    · exact h.idLt r hr
  idNodup := by
    have : (s.updateRequest id f).requests.map (fun r => r.id) = s.requests.map (fun r => r.id) := by
      simp only [Store.updateRequest, List.map_map]
      apply List.map_congr_left
      intro r _
      simp only [Function.comp]
      split
      · exact hfid r
      · rfl
    rw [this]; exact h.idNodup
  ledgerLt := h.ledgerLt
  consistent := by
    intro x hx
    simp only [Store.updateRequest, List.mem_map] at hx
    obtain ⟨r, hr, rfl⟩ := hx
    have hc := h.consistent r hr
    show _ = s.ledgerStatus _
    split
    · rw [hfid, hfst]; exact hc
    · exact hc

theorem inv_destroy {s : Store} (h : s.Inv) (id : Nat) : (ServiceRequest.destroy s id).Inv where
  counter := h.counter
  idPos := by
    intro x hx
    simp only [ServiceRequest.destroy, List.mem_filter] at hx
    exact h.idPos x hx.1
  idLt := by
    intro x hx
    simp only [ServiceRequest.destroy, List.mem_filter] at hx
    exact h.idLt x hx.1
  idNodup := by
    simp only [ServiceRequest.destroy]
    exact (h.idNodup.sublist ((List.filter_sublist _).map _))
  ledgerLt := by
    intro t ht
    simp only [ServiceRequest.destroy, List.mem_filter] at ht
    exact h.ledgerLt t ht.1
  consistent := by
    intro x hx
    simp only [ServiceRequest.destroy, List.mem_filter] at hx
    have hne : x.id ≠ id := by simpa using hx.2
    have hl : (ServiceRequest.destroy s id).ledger x.id = s.ledger x.id := by
      simp only [Store.ledger, ServiceRequest.destroy, List.filter_filter]
      apply List.filter_congr
      intro t _
      by_cases ht : t.requestId = x.id
      · simp [ht, hne]
      · simp [ht]
    have hc := h.consistent x hx.1
    unfold Store.ledgerStatus at hc ⊢
    rw [hl]; exact hc

theorem ledger_insertTracking_self (s : Store) (t : StatusTracking) :
    (s.insertTracking t).ledger t.requestId = s.ledger t.requestId ++ [t] := by
  simp [Store.ledger, Store.insertTracking, List.filter_append]

theorem ledger_insertTracking_other (s : Store) (t : StatusTracking) {id : Nat}
    (h : id ≠ t.requestId) : (s.insertTracking t).ledger id = s.ledger id := by
  have : ¬ t.requestId = id := fun e => h e.symm
  simp [Store.ledger, Store.insertTracking, List.filter_append, this]

theorem inv_tracked {s : Store} (h : s.Inv) (now : Nat) (request : ServiceRequest)
    (t : StatusTracking) (hmem : request ∈ s.requests) (ht : t.requestId = request.id) :
    (s.tracked now request t).Inv where
  counter := h.counter
  idPos := by
    intro x hx
    simp only [Store.tracked, Store.updateRequest, Store.insertTracking, List.mem_map] at hx
    obtain ⟨r, hr, rfl⟩ := hx
    split
    · rw [apply_id]; exact h.idPos r hr
    · exact h.idPos r hr
  idLt := by
    intro x hx
    simp only [Store.tracked, Store.updateRequest, Store.insertTracking, List.mem_map] at hx
    obtain ⟨r, hr, rfl⟩ := hx
    show _ < s.nextRequestId
    split
    · rw [apply_id]; exact h.idLt r hr
    · exact h.idLt r hr
  idNodup := by
    have : (s.tracked now request t).requests.map (fun r => r.id) =
        s.requests.map (fun r => r.id) := by
      simp only [Store.tracked, Store.updateRequest, Store.insertTracking, List.map_map]
      apply List.map_congr_left
      intro r _
      simp only [Function.comp]
      split
      · exact apply_id _ _ _
      · rfl
    rw [this]; exact h.idNodup
  ledgerLt := by
    intro x hx
    simp only [Store.tracked, Store.updateRequest, Store.insertTracking, List.mem_append,
      List.mem_singleton] at hx
    show _ < s.nextRequestId
    rcases hx with hx | rfl
    · exact h.ledgerLt x hx
    · rw [ht]; exact h.idLt request hmem
  consistent := by
    intro x hx
    simp only [Store.tracked, Store.updateRequest, Store.insertTracking, List.mem_map] at hx
    obtain ⟨r, hr, rfl⟩ := hx
    have hc := h.consistent r hr
    show _ = (s.insertTracking t).ledgerStatus _
    by_cases hid : r.id = request.id
    · have hb : (r.id == request.id) = true := by simpa using hid
      simp only [hb, if_true, apply_id, apply_status, Option.getD_some]
      unfold Store.ledgerStatus
      rw [hid, ← ht, ledger_insertTracking_self]
      simp
    · have hb : (r.id == request.id) = false := by simpa using hid
      simp only [hb]
      unfold Store.ledgerStatus at hc ⊢
      rw [ledger_insertTracking_other s t (by rw [ht]; exact hid)]
      exact hc

theorem inv_run {s : Store} (h : s.Inv) (c : Call) : (c.run s).2.Inv := by
  cases c with
  | createRequest now userId b =>
    rcases postRequest_cases s now userId b with ⟨he, -⟩ | ⟨t, d, -, -, -, -, -, -, -, -, he⟩
    · simp only [Call.run, he]; exact h
    · simp only [Call.run, he]
      exact inv_insertRequest h _ rfl rfl
  | updateRequestFields now userId id st d p l =>
    rcases putRequest_cases s now userId id st d p l with ⟨he, -⟩ | ⟨request, -, -, he⟩
    · simp only [Call.run, he]; exact h
    · simp only [Call.run, he]
      exact inv_updateRequest h _ _ (apply_id _ _) (fun r => by rw [apply_status]; rfl)
  | deleteRequest userId id =>
    rcases deleteRequest_cases s userId id with ⟨he, -⟩ | ⟨request, -, he⟩
    · simp only [Call.run, he]; exact h
    · simp only [Call.run, he]
      exact inv_destroy h _
  | recordStatusTransition now userId b =>
    rcases postTrack_cases s now userId b with ⟨he, -⟩ | ⟨id, S, request, -, -, -, -, hf, -, -, -, he⟩
    · simp only [Call.run, he]; exact h
    · simp only [Call.run, he]
      have hr := findOne_some hf
      exact inv_tracked h now request _ hr.1 hr.2.1.symm

theorem after_append (calls : List Call) (c : Call) :
    Store.after (calls ++ [c]) = (c.run (Store.after calls)).2 := by
  simp [Store.after, List.foldl_append]

theorem inv_after (calls : List Call) : (Store.after calls).Inv := by
  induction calls using List.reverseRecOn with
  | nil => exact inv_empty
  | append_singleton cs c ih => rw [after_append]; exact inv_run ih c

theorem reachable_inv {s : Store} (h : Reachable s) : s.Inv := by
  obtain ⟨calls, rfl⟩ := h
  exact inv_after calls

theorem reachable_run {s : Store} (h : Reachable s) (c : Call) : Reachable (c.run s).2 := by
  obtain ⟨calls, rfl⟩ := h
  exact ⟨calls ++ [c], after_append calls c⟩

/-! ## Lookups after a write -/

theorem findOne_insertTracking (s : Store) (t : StatusTracking) (id userId : Nat) :
    ServiceRequest.findOne (s.insertTracking t) id userId = ServiceRequest.findOne s id userId := rfl

theorem findOne_updateRequest (s : Store) (id' : Nat) (f : ServiceRequest → ServiceRequest)
    (hfid : ∀ r, (f r).id = r.id) (hfu : ∀ r, (f r).userId = r.userId) (id userId : Nat) :
    ServiceRequest.findOne (s.updateRequest id' f) id userId =
      (ServiceRequest.findOne s id userId).map (fun r => if r.id == id' then f r else r) := by
  unfold ServiceRequest.findOne Store.updateRequest
  rw [List.find?_map]
  have hp : ((fun r : ServiceRequest => r.id == id && r.userId == userId) ∘
      fun r => if (r.id == id') = true then f r else r) =
      fun r => r.id == id && r.userId == userId := by
    funext r
    simp only [Function.comp]
    split
    · rw [hfid, hfu]
    · rfl
  rw [hp]

theorem findOne_tracked {s : Store} {now : Nat} {request : ServiceRequest} {t : StatusTracking}
    {id userId : Nat} (h : ServiceRequest.findOne s id userId = some request) :
    ServiceRequest.findOne (s.tracked now request t) id userId =
      some (Patch.apply { status := some t.status } now request) := by
  unfold Store.tracked
  rw [findOne_updateRequest _ _ _ (apply_id _ _) (apply_userId _ _),
    findOne_insertTracking, h]
  simp

theorem findOne_of_mem {s : Store} (h : s.Inv) {r : ServiceRequest} (hr : r ∈ s.requests) :
    ServiceRequest.findOne s r.id r.userId = some r := by
  unfold ServiceRequest.findOne
  cases hf : s.requests.find? (fun x => x.id == r.id && x.userId == r.userId) with
  | none =>
    rw [List.find?_eq_none] at hf
    have := hf r hr
    simp at this
  | some x =>
    have hx := List.mem_of_find?_eq_some hf
    have hp := List.find?_some hf
    simp only [Bool.and_eq_true, beq_iff_eq] at hp
    have := List.inj_on_of_nodup_map h.idNodup hx hr hp.1
    rw [this]

theorem findOne_foreign {s : Store} (h : s.Inv) {id userId : Nat}
    (hex : ∃ r ∈ s.requests, r.id = id ∧ r.userId ≠ userId) :
    ServiceRequest.findOne s id userId = none := by
  obtain ⟨r, hr, hid, hu⟩ := hex
  cases hf : ServiceRequest.findOne s id userId with
  | none => rfl
  | some x =>
    obtain ⟨hx, hxid, hxu⟩ := findOne_some hf
    have := List.inj_on_of_nodup_map h.idNodup hx hr (by rw [hxid, hid])
    rw [this] at hxu
    exact absurd hxu hu

theorem findOne_absent {s : Store} {id userId : Nat} (hno : ∀ r ∈ s.requests, r.id ≠ id) :
    ServiceRequest.findOne s id userId = none := by
  unfold ServiceRequest.findOne
  rw [List.find?_eq_none]
  intro r hr
  have := hno r hr
  simp [this]

/-! ## The ledger queries of the read handlers -/

theorem findAll_createdAt (s : Store) (requestId : Nat) :
    StatusTracking.findAll s requestId "createdAt" = .error (.unknownColumn "createdAt") := by
  unfold StatusTracking.findAll
  rw [if_neg createdAt_not_column]

theorem getHistory_owned {s : Store} {userId requestId : Nat} {request : ServiceRequest}
    (h : ServiceRequest.findOne s requestId userId = some request) :
    getHistory s userId requestId = getHistoryCatch (.unknownColumn "createdAt") := by
  unfold getHistory
  simp only [h, findAll_createdAt]

theorem getCurrent_owned {s : Store} {userId requestId : Nat} {request : ServiceRequest}
    (h : ServiceRequest.findOne s requestId userId = some request) :
    getCurrent s userId requestId = getCurrentCatch (.unknownColumn "createdAt") := by
  unfold getCurrent StatusTracking.findOne
  simp only [h, findAll_createdAt]
  rfl

/-! ## Validation of the optional fields -/

theorem checkNotes_orNull_ok {n : Field} (h : ∀ x, n = .str x → x.length ≤ 500) :
    checkNotes n.orNull = .ok () := by
  cases n with
  | undefined => rfl
  | null => rfl
  | str x =>
    have hx := h x rfl
    by_cases he : x = ""
    · simp [Field.orNull, he, checkNotes]
    · simp [Field.orNull, he, checkNotes, hx]

theorem checkAssignedTo_orNull_ok {a : Field} (h : ∀ x, a = .str x → x.length ≤ 255) :
    checkAssignedTo a.orNull = .ok () := by
  cases a with
  | undefined => rfl
  | null => rfl
  | str x =>
    have hx := h x rfl
    by_cases he : x = ""
    · simp [Field.orNull, he, checkAssignedTo]
    · simp [Field.orNull, he, checkAssignedTo, hx]

theorem checkLocation_orNull_ok {l : Field} (h : ∀ x, l = .str x → x.length ≤ 255) :
    checkLocation l.orNull = .ok () := by
  cases l with
  | undefined => rfl
  | null => rfl
  | str x =>
    have hx := h x rfl
    by_cases he : x = ""
    · simp [Field.orNull, he, checkLocation]
    · simp [Field.orNull, he, checkLocation, hx]

theorem checkStatus_ok_iff (S : String) : checkStatus S = .ok () ↔ S ∈ statuses := by
  unfold checkStatus
  split <;> simp [*]

theorem ne_empty_of_mem_statuses {S : String} (h : S ∈ statuses) : S ≠ "" := by
  rintro rfl
  revert h
  decide

theorem letters_length (n : Nat) : (letters n).length = n := by
  simp [letters, String.length]

theorem letters_ne_empty (n : Nat) : letters (n + 1) ≠ "" := by
  intro h
  have := congrArg String.length h
  rw [letters_length] at this
  simp at this

/-! ## C1 -/

/-- In every reachable store the status column of a request agrees with the
ledger table: it is the status of the request's most recent ledger row, or
`'Pending'` when the request has none. -/
theorem status_matches_ledger {s : Store} (h : Reachable s) {r : ServiceRequest}
    (hr : r ∈ s.requests) : r.status = s.ledgerStatus r.id :=
  (reachable_inv h).consistent r hr

/-- The invariant instantiated on the store of the scenario, which is reachable. -/
theorem status_matches_ledger_witness :
    Reachable assignedStore ∧
      ∀ r ∈ assignedStore.requests, r.status = assignedStore.ledgerStatus r.id :=
  ⟨⟨_, rfl⟩, fun _ hr => status_matches_ledger ⟨_, rfl⟩ hr⟩

/-- In every reachable store, GetStatusHistory asked by the owner of a stored
request answers with the 500 response of its `catch` block: the ledger query
orders by `createdAt`, which is not a column of the ledger table. -/
theorem getHistory_fails_for_owner {s : Store} (h : Reachable s) {r : ServiceRequest}
    (hr : r ∈ s.requests) :
    getHistory s r.userId r.id = getHistoryCatch (.unknownColumn "createdAt") :=
  getHistory_owned (findOne_of_mem (reachable_inv h) hr)

/-- The failure of GetStatusHistory instantiated at request 1 of the scenario. -/
theorem getHistory_fails_for_owner_witness :
    Reachable assignedStore ∧
      getHistory assignedStore 42 1 = getHistoryCatch (.unknownColumn "createdAt") :=
  ⟨⟨_, rfl⟩,
   getHistory_fails_for_owner (s := assignedStore) ⟨_, rfl⟩
     (r := repairRequest "Assigned" 101) (by decide)⟩

/-- C1 (code defect): after user 42 creates request 1 and records its
transition to `'Assigned'`, the request's status is `'Assigned'` and its only
ledger row carries `'Assigned'`, but GetStatusHistory by the owner answers 500
`'Failed to fetch status history'` instead of a history whose first element
has that status. -/
theorem c1_history_query_fails :
    ServiceRequest.findOne assignedStore 1 42 = some (repairRequest "Assigned" 101) ∧
    assignedStore.ledger 1 =
      [{ id := 1, requestId := 1, status := "Assigned", assignedTo := some "Jane",
         notes := none }] ∧
    getHistory assignedStore 42 1 =
      { status := 500,
        body := .failure "Failed to fetch status history" (.unknownColumn "createdAt") } := by
  decide

/-! ## C2 -/

/-- C2 (code defect): whenever RecordStatusTransition succeeds (201), the
request row carries the new status, yet GetLatestStatus called by the same
user right afterwards answers with the 500 response of its `catch` block and
returns no `currentStatus` at all. -/
theorem c2_latest_status_fails_after_transition (s : Store) (now userId : Nat) (b : TrackBody)
    (h : (postTrack s now userId b).1.status = 201) :
    ∃ id S request, b.requestId = some id ∧ b.status = .str S ∧
      ServiceRequest.findOne (postTrack s now userId b).2 id userId = some request ∧
      request.status = S ∧
      getCurrent (postTrack s now userId b).2 userId id =
        getCurrentCatch (.unknownColumn "createdAt") := by
  rcases postTrack_cases s now userId b with ⟨-, hne⟩ | ⟨id, S, request, hid, hS, -, -, hf, -, -, -, he⟩
  · exact absurd h hne
  · have hf2 := @findOne_tracked s now request
      (newTracking s id S b.assignedTo.orNull b.notes.orNull) id userId hf
    refine ⟨id, S, Patch.apply { status := some S } now request, hid, hS, ?_, ?_, ?_⟩
    · rw [he]; exact hf2
    · rw [apply_status]; rfl
    · rw [he]; exact getCurrent_owned hf2

/-- C2 at the scenario: the transition of request 1 to `'Assigned'` succeeds and
GetLatestStatus then answers 500. -/
theorem c2_latest_status_fails_witness :
    (postTrack oneRequest 101 42 assignBody).1.status = 201 ∧
    ∃ id S request, assignBody.requestId = some id ∧ assignBody.status = .str S ∧
      ServiceRequest.findOne (postTrack oneRequest 101 42 assignBody).2 id 42 = some request ∧
      request.status = S ∧
      getCurrent (postTrack oneRequest 101 42 assignBody).2 42 id =
        getCurrentCatch (.unknownColumn "createdAt") :=
  ⟨by decide, c2_latest_status_fails_after_transition oneRequest 101 42 assignBody (by decide)⟩

/-! ## C3 -/

theorem postTrack_valid {s : Store} (hs : Reachable s) {now userId id : Nat}
    {request : ServiceRequest} {S : String} {assignedTo notes : Field}
    (hown : ServiceRequest.findOne s id userId = some request)
    (hS : S ∈ statuses)
    (hnotes : ∀ x, notes = .str x → x.length ≤ 500)
    (hassignee : ∀ x, assignedTo = .str x → x.length ≤ 255) :
    postTrack s now userId
      { requestId := some id, status := .str S, assignedTo := assignedTo, notes := notes } =
      (postTrackCreated s.nextTrackingId id S,
        s.tracked now request (newTracking s id S assignedTo.orNull notes.orNull)) := by
  have hmem := findOne_some hown
  have hpos := (reachable_inv hs).idPos request hmem.1
  have hid0 : id ≠ 0 := by rw [← hmem.2.1]; omega
  exact @postTrack_ok _ _ _ _ _ _ request rfl rfl hid0 (ne_empty_of_mem_statuses hS) hown
    (checkNotes_orNull_ok hnotes) ((checkStatus_ok_iff S).2 hS)
    (checkAssignedTo_orNull_ok hassignee)

set_option maxRecDepth 100000 in
/-- C3 (counterexample): request 1 is owned by user 42, `'Assigned'` is an
enumerated status and no notes are sent, yet RecordStatusTransition is refused
(500) because the assignee label has 256 characters, more than the
`STRING(255)` column holds; the store is left as it was. -/
theorem c3_long_assignee_refused :
    (ServiceRequest.findOne oneRequest 1 42).isSome = true ∧
    "Assigned" ∈ statuses ∧
    longAssigneeBody.notes = .undefined ∧
    postTrack oneRequest 101 42 longAssigneeBody =
      (postTrackCatch (.tooLong "assignedTo"), oneRequest) := by
  decide

/-- C3 (amended): the state machine is permissive.  In every reachable store,
for every request owned by the caller, whatever its current status, and every
enumerated new status, RecordStatusTransition succeeds (201) provided the
notes, when given, have at most 500 characters and the assignee label, when
given, has at most 255 characters.  No hypothesis mentions the status the
request has before the call. -/
theorem c3_permissive_transition (s : Store) (hs : Reachable s) (now userId id : Nat)
    (request : ServiceRequest) (S : String) (assignedTo notes : Field)
    (hown : ServiceRequest.findOne s id userId = some request)
    (hS : S ∈ statuses)
    (hnotes : ∀ x, notes = .str x → x.length ≤ 500)
    (hassignee : ∀ x, assignedTo = .str x → x.length ≤ 255) :
    (postTrack s now userId
      { requestId := some id, status := .str S, assignedTo := assignedTo, notes := notes }).1.status
      = 201 := by
  rw [postTrack_valid hs hown hS hnotes hassignee]
  rfl

/-- C3 (amended) at the scenario: request 1 is `'Assigned'` and its owner moves it
back to `'Pending'`. -/
theorem c3_permissive_transition_witness :
    ServiceRequest.findOne assignedStore 1 42 = some (repairRequest "Assigned" 101) ∧
    (postTrack assignedStore 102 42
      { requestId := some 1, status := .str "Pending", assignedTo := .undefined,
        notes := .str "back to the queue" }).1.status = 201 :=
  ⟨by decide,
   c3_permissive_transition assignedStore ⟨_, rfl⟩ 102 42 1 (repairRequest "Assigned" 101)
     "Pending" .undefined (.str "back to the queue") (by decide) (by decide) (by intro x hx; cases hx; decide) (by intro x hx; cases hx)⟩

/-! ## C4 -/

/-- C4 (counterexample): request 1 exists and is owned by user 42; user 99
calls RecordStatusTransition on it without a status and gets the 400 response
`'Missing required fields'`, not the 404 one. -/
theorem c4_missing_status_is_400 :
    (∃ r ∈ oneRequest.requests, r.id = 1 ∧ r.userId ≠ 99) ∧
    (postTrack oneRequest 101 99 { requestId := some 1, status := .undefined }).1 =
      { status := 400,
        body := .missingFields "Missing required fields" ["requestId", "status"] } := by
  refine ⟨⟨_, List.mem_singleton.2 rfl, ?_⟩, ?_⟩ <;> decide

/-- C4 (amended): let request `id` exist in a reachable store `s` and be owned
by a user other than the caller, and let `s'` be any store without a request
of that id.  GetRequest, UpdateRequestFields and DeleteRequest answer 404 on
`s`, with every choice of the remaining arguments, and so does
RecordStatusTransition when its status argument is a non-empty string; when
the status is missing or empty it answers 400.  In every case the response is
the one the same call gets on `s'`, and `s` is not changed. -/
theorem c4_foreign_request_hidden (s s' : Store) (hs : Reachable s) (userId id : Nat)
    (hforeign : ∃ r ∈ s.requests, r.id = id ∧ r.userId ≠ userId)
    (habsent : ∀ r ∈ s'.requests, r.id ≠ id) :
    (getRequest s userId id = getRequest s' userId id ∧ (getRequest s userId id).status = 404) ∧
    (∀ now serviceType description priority location,
      (putRequest s now userId id serviceType description priority location).1 =
        (putRequest s' now userId id serviceType description priority location).1 ∧
      (putRequest s now userId id serviceType description priority location).1.status = 404 ∧
      (putRequest s now userId id serviceType description priority location).2 = s) ∧
    ((deleteRequest s userId id).1 = (deleteRequest s' userId id).1 ∧
      (deleteRequest s userId id).1.status = 404 ∧ (deleteRequest s userId id).2 = s) ∧
    (∀ now status assignedTo notes,
      (postTrack s now userId
        { requestId := some id, status := status, assignedTo := assignedTo, notes := notes }).1 =
        (postTrack s' now userId
          { requestId := some id, status := status, assignedTo := assignedTo, notes := notes }).1 ∧
      (postTrack s now userId
        { requestId := some id, status := status, assignedTo := assignedTo, notes := notes }).1.status =
        (if status.truthy then 404 else 400) ∧
      (postTrack s now userId
        { requestId := some id, status := status, assignedTo := assignedTo, notes := notes }).2 = s) := by
  have hinv := reachable_inv hs
  have h1 : ServiceRequest.findOne s id userId = none := findOne_foreign hinv hforeign
  have h2 : ServiceRequest.findOne s' id userId = none := findOne_absent habsent
  have hid0 : id ≠ 0 := by
    obtain ⟨r, hr, hid, -⟩ := hforeign
    have := hinv.idPos r hr
    omega
  refine ⟨?_, ?_, ?_, ?_⟩
  · simp [getRequest, h1, h2]
  · intro now st d p l
    simp [putRequest, h1, h2]
  · simp [deleteRequest, h1, h2]
  · intro now status a n
    cases status with
    | undefined => simp [postTrack, postTrackMissing, Field.truthy]
    | null => simp [postTrack, postTrackMissing, Field.truthy]
    | str S =>
      by_cases hS : S = ""
      · simp [postTrack, postTrackMissing, Field.truthy, hS]
      · simp [postTrack, postTrackNotFound, Field.truthy, hS, hid0, h1, h2]

/-- C4 (amended) at the scenario: user 99 addresses request 1 of user 42 and gets
what the empty store answers. -/
theorem c4_foreign_request_hidden_witness :
    (getRequest oneRequest 99 1 = getRequest Store.empty 99 1 ∧
      (getRequest oneRequest 99 1).status = 404) ∧
    (∀ now serviceType description priority location,
      (putRequest oneRequest now 99 1 serviceType description priority location).1 =
        (putRequest Store.empty now 99 1 serviceType description priority location).1 ∧
      (putRequest oneRequest now 99 1 serviceType description priority location).1.status = 404 ∧
      (putRequest oneRequest now 99 1 serviceType description priority location).2 = oneRequest) ∧
    ((deleteRequest oneRequest 99 1).1 = (deleteRequest Store.empty 99 1).1 ∧
      (deleteRequest oneRequest 99 1).1.status = 404 ∧ (deleteRequest oneRequest 99 1).2 = oneRequest) ∧
    (∀ now status assignedTo notes,
      (postTrack oneRequest now 99
        { requestId := some 1, status := status, assignedTo := assignedTo, notes := notes }).1 =
        (postTrack Store.empty now 99
          { requestId := some 1, status := status, assignedTo := assignedTo, notes := notes }).1 ∧
      (postTrack oneRequest now 99
        { requestId := some 1, status := status, assignedTo := assignedTo, notes := notes }).1.status =
        (if status.truthy then 404 else 400) ∧
      (postTrack oneRequest now 99
        { requestId := some 1, status := status, assignedTo := assignedTo, notes := notes }).2 =
        oneRequest) :=
  c4_foreign_request_hidden oneRequest Store.empty ⟨_, rfl⟩ 99 1
    ⟨_, List.mem_singleton.2 rfl, by decide, by decide⟩ (by intro r hr; cases hr)

/-! ## C5 -/

/-- C5: a call of UpdateRequestFields, DeleteRequest or RecordStatusTransition
that does not answer with its success code (so one refused by the ownership
check, 404, by the required-field test, 400, or because a supplied value is
invalid, 500) returns the store it was given: no request field is changed, no
request is removed and no ledger row is appended. -/
theorem c5_failed_call_keeps_store (s : Store) :
    (∀ now userId id serviceType description priority location,
      (putRequest s now userId id serviceType description priority location).1.status ≠ 200 →
      (putRequest s now userId id serviceType description priority location).2 = s) ∧
    (∀ userId id,
      (deleteRequest s userId id).1.status ≠ 200 → (deleteRequest s userId id).2 = s) ∧
    (∀ now userId b,
      (postTrack s now userId b).1.status ≠ 201 → (postTrack s now userId b).2 = s) := by
  refine ⟨?_, ?_, ?_⟩
  · intro now userId id st d p l h
    rcases putRequest_cases s now userId id st d p l with ⟨he, -⟩ | ⟨request, -, -, he⟩
    · exact he
    · rw [he] at h; exact absurd rfl h
  · intro userId id h
    rcases deleteRequest_cases s userId id with ⟨he, -⟩ | ⟨request, -, he⟩
    · exact he
    · rw [he] at h; exact absurd rfl h
  · intro now userId b h
    rcases postTrack_cases s now userId b with ⟨he, -⟩ | ⟨id, S, request, -, -, -, -, -, -, -, -, he⟩
    · exact he
    · rw [he] at h; exact absurd rfl h

set_option maxRecDepth 100000 in
/-- C5 at the scenario: calls refused by the ownership check and calls with an
invalid value leave the store as it was. -/
theorem c5_failed_call_keeps_store_witness :
    (putRequest assignedStore 102 99 1 .undefined (.str "short") .undefined .undefined).2 =
      assignedStore ∧
    (putRequest assignedStore 102 42 1 .undefined (.str "short") .undefined .undefined).2 =
      assignedStore ∧
    (deleteRequest assignedStore 99 1).2 = assignedStore ∧
    (postTrack assignedStore 102 99 assignBody).2 = assignedStore ∧
    (postTrack assignedStore 102 42 longNotesBody).2 = assignedStore :=
  ⟨(c5_failed_call_keeps_store assignedStore).1 102 99 1 _ _ _ _ (by decide),
   (c5_failed_call_keeps_store assignedStore).1 102 42 1 _ _ _ _ (by decide),
   (c5_failed_call_keeps_store assignedStore).2.1 99 1 (by decide),
   (c5_failed_call_keeps_store assignedStore).2.2 102 99 assignBody (by decide),
   (c5_failed_call_keeps_store assignedStore).2.2 102 42 longNotesBody (by decide)⟩

/-! ## C6 -/

/-- Run without interference, the three steps of the handler compute
`postTrack`. -/
theorem postTrack_eq_steps (s : Store) (now userId : Nat) (b : TrackBody) :
    (postTrackStep now userId b)^[3] (.start, s) =
      (.done (postTrack s now userId b).1, (postTrack s now userId b).2) := by
  simp only [Function.iterate_succ, Function.iterate_zero, Function.comp, id]
  unfold postTrack
  cases hid : b.requestId with
  | none => simp [postTrackStep, hid]
  | some id =>
    cases hS : b.status with
    | undefined => simp [postTrackStep, hid, hS]
    | null => simp [postTrackStep, hid, hS]
    | str S =>
      by_cases h0 : id = 0 ∨ S = ""
      · simp [postTrackStep, hid, hS, h0]
      · cases hfind : ServiceRequest.findOne s id userId with
        | none => simp [postTrackStep, hid, hS, h0, hfind]
        | some request =>
          cases hc : StatusTracking.create s id S b.assignedTo.orNull b.notes.orNull with
          | error e => simp [postTrackStep, hid, hS, h0, hfind, hc]
          | ok v =>
            obtain ⟨t, s1⟩ := v
            cases hu : ServiceRequest.update s1 now request { status := some S } with
            | error e => simp [postTrackStep, hid, hS, h0, hfind, hc, hu]
            | ok w =>
              obtain ⟨r2, s2⟩ := w
              simp [postTrackStep, hid, hS, h0, hfind, hc, hu]

/-- C6 (counterexample): user 42 records the transition of request 1 from
`'Pending'` to `'Assigned'`.  After the second step of the handler the ledger
holds the new `'Assigned'` row while the request row still says `'Pending'`,
and a GetRequest run at that moment returns the request with status
`'Pending'`. -/
theorem c6_intermediate_state_visible :
    (postTrackStep 101 42 assignBody)^[2] (.start, oneRequest) =
      (.inserted 1 "Assigned" (repairRequest "Pending" 100)
          { id := 1, requestId := 1, status := "Assigned", assignedTo := some "Jane",
            notes := none },
        oneRequest.insertTracking
          { id := 1, requestId := 1, status := "Assigned", assignedTo := some "Jane",
            notes := none }) ∧
    ((postTrackStep 101 42 assignBody)^[2] (.start, oneRequest)).2.ledger 1 =
      [{ id := 1, requestId := 1, status := "Assigned", assignedTo := some "Jane",
         notes := none }] ∧
    getRequest ((postTrackStep 101 42 assignBody)^[2] (.start, oneRequest)).2 42 1 =
      { status := 200, body := .fetched (repairRequest "Pending" 100) } := by
  decide

/-- C6 (amended): RecordStatusTransition writes in two steps, ledger first.
For a request owned by the caller in a reachable store and valid arguments:
the first step (lookup) leaves the store as it is; after the second step the
store is the old one with the new ledger row appended, so the row exists while
every GetRequest still answers as before the call; after the third step the
request row carries the new status and the run has the result of `postTrack`.
The store never holds the new status without the new ledger row. -/
theorem c6_two_step_write (s : Store) (hs : Reachable s) (now userId id : Nat)
    (request : ServiceRequest) (S : String) (assignedTo notes : Field)
    (hown : ServiceRequest.findOne s id userId = some request)
    (hS : S ∈ statuses)
    (hnotes : ∀ x, notes = .str x → x.length ≤ 500)
    (hassignee : ∀ x, assignedTo = .str x → x.length ≤ 255) :
    (postTrackStep now userId
        { requestId := some id, status := .str S, assignedTo := assignedTo, notes := notes })^[1]
      (.start, s) = (.found id S request, s) ∧
    (postTrackStep now userId
        { requestId := some id, status := .str S, assignedTo := assignedTo, notes := notes })^[2]
      (.start, s) =
      (.inserted id S request (newTracking s id S assignedTo.orNull notes.orNull),
        s.insertTracking (newTracking s id S assignedTo.orNull notes.orNull)) ∧
    (∀ reader rid,
      getRequest (s.insertTracking (newTracking s id S assignedTo.orNull notes.orNull)) reader rid =
        getRequest s reader rid) ∧
    (postTrackStep now userId
        { requestId := some id, status := .str S, assignedTo := assignedTo, notes := notes })^[3]
      (.start, s) =
      (.done (postTrackCreated s.nextTrackingId id S),
        s.tracked now request (newTracking s id S assignedTo.orNull notes.orNull)) ∧
    (ServiceRequest.findOne
        (s.tracked now request (newTracking s id S assignedTo.orNull notes.orNull)) id userId).map
      (fun r => r.status) = some S := by
  have hmem := findOne_some hown
  have hpos := (reachable_inv hs).idPos request hmem.1
  have hid0 : id ≠ 0 := by rw [← hmem.2.1]; omega
  have hS0 := ne_empty_of_mem_statuses hS
  have hn := checkNotes_orNull_ok hnotes
  have ha := checkAssignedTo_orNull_ok hassignee
  have hst := (checkStatus_ok_iff S).2 hS
  have hc : StatusTracking.create s id S assignedTo.orNull notes.orNull =
      .ok (newTracking s id S assignedTo.orNull notes.orNull,
        s.insertTracking (newTracking s id S assignedTo.orNull notes.orNull)) := by
    rcases tracking_create_cases s id S assignedTo.orNull notes.orNull with
      ⟨e, -, h | h | h⟩ | ⟨hc, -⟩
    · rw [hn] at h; cases h
    · rw [hst] at h; cases h
    · rw [ha] at h; cases h
    · exact hc
  have h1 : postTrackStep now userId
      { requestId := some id, status := .str S, assignedTo := assignedTo, notes := notes }
      (.start, s) = (.found id S request, s) := by
    simp [postTrackStep, hid0, hS0, hown]
  have h2 : postTrackStep now userId
      { requestId := some id, status := .str S, assignedTo := assignedTo, notes := notes }
      (.found id S request, s) =
      (.inserted id S request (newTracking s id S assignedTo.orNull notes.orNull),
        s.insertTracking (newTracking s id S assignedTo.orNull notes.orNull)) := by
    simp [postTrackStep, hc]
  refine ⟨?_, ?_, ?_, ?_, ?_⟩
  · simpa using h1
  · simp only [Function.iterate_succ, Function.iterate_zero, Function.comp_apply, id_eq, h1, h2]
  · intro reader rid; rfl
  · rw [postTrack_eq_steps,
      @postTrack_ok _ _ _ _ _ _ request rfl rfl hid0 hS0 hown hn hst ha]
  · rw [findOne_tracked hown]
    simp only [Option.map_some', apply_status]
    rfl

/-- C6 (amended) at the scenario: the three steps of the transition of request 1
to `'Assigned'`. -/
theorem c6_two_step_write_witness :
    (postTrackStep 101 42 assignBody)^[1] (.start, oneRequest) =
      (.found 1 "Assigned" (repairRequest "Pending" 100), oneRequest) ∧
    (postTrackStep 101 42 assignBody)^[2] (.start, oneRequest) =
      (.inserted 1 "Assigned" (repairRequest "Pending" 100)
          (newTracking oneRequest 1 "Assigned" (Field.str "Jane").orNull Field.undefined.orNull),
        oneRequest.insertTracking
          (newTracking oneRequest 1 "Assigned" (Field.str "Jane").orNull Field.undefined.orNull)) ∧
    (∀ reader rid,
      getRequest (oneRequest.insertTracking
          (newTracking oneRequest 1 "Assigned" (Field.str "Jane").orNull Field.undefined.orNull))
        reader rid = getRequest oneRequest reader rid) ∧
    (postTrackStep 101 42 assignBody)^[3] (.start, oneRequest) =
      (.done (postTrackCreated oneRequest.nextTrackingId 1 "Assigned"),
        oneRequest.tracked 101 (repairRequest "Pending" 100)
          (newTracking oneRequest 1 "Assigned" (Field.str "Jane").orNull Field.undefined.orNull)) ∧
    (ServiceRequest.findOne
        (oneRequest.tracked 101 (repairRequest "Pending" 100)
          (newTracking oneRequest 1 "Assigned" (Field.str "Jane").orNull Field.undefined.orNull))
        1 42).map (fun r => r.status) = some "Assigned" :=
  c6_two_step_write oneRequest ⟨_, rfl⟩ 101 42 1 (repairRequest "Pending" 100) "Assigned"
    (.str "Jane") .undefined (by decide) (by decide) (by intro x hx; cases hx)
    (by intro x hx; cases hx; decide)

/-! ## C7 -/

set_option maxRecDepth 100000 in
/-- C7 (counterexample): request 1 is owned by user 42, the new status
`'Completed'` is enumerated and the notes have exactly 500 characters, yet the
call is rejected (500): the assignee label has 256 characters. -/
theorem c7_valid_status_and_notes_rejected :
    ServiceRequest.findOne oneRequest 1 42 = some (repairRequest "Pending" 100) ∧
    "Completed" ∈ statuses ∧ (letters 500).length = 500 ∧
    postTrack oneRequest 101 42 wideAssigneeBody =
      (postTrackCatch (.tooLong "assignedTo"), oneRequest) := by
  decide

/-- C7 (amended): in a reachable store, for a request owned by the caller,
RecordStatusTransition is rejected (no 201, store unchanged) when the status
is missing or not one of the six enumerated values and when the notes have
more than 500 characters; it is accepted (201) when the status is enumerated,
the notes are absent or have at most 500 characters and the assignee label is
absent or has at most 255 characters. -/
theorem c7_status_and_notes_validation (s : Store) (hs : Reachable s) (now userId id : Nat)
    (request : ServiceRequest) (status assignedTo notes : Field)
    (hown : ServiceRequest.findOne s id userId = some request) :
    ((∀ S, status = .str S → S ∉ statuses) →
      (postTrack s now userId
        { requestId := some id, status := status, assignedTo := assignedTo, notes := notes }).1.status
          ≠ 201 ∧
      (postTrack s now userId
        { requestId := some id, status := status, assignedTo := assignedTo, notes := notes }).2 = s) ∧
    ((∃ x, notes = .str x ∧ 500 < x.length) →
      (postTrack s now userId
        { requestId := some id, status := status, assignedTo := assignedTo, notes := notes }).1.status
          ≠ 201 ∧
      (postTrack s now userId
        { requestId := some id, status := status, assignedTo := assignedTo, notes := notes }).2 = s) ∧
    ((∃ S, status = .str S ∧ S ∈ statuses) → (∀ x, notes = .str x → x.length ≤ 500) →
      (∀ x, assignedTo = .str x → x.length ≤ 255) →
      (postTrack s now userId
        { requestId := some id, status := status, assignedTo := assignedTo, notes := notes }).1.status
          = 201) := by
  refine ⟨?_, ?_, ?_⟩
  · intro hbad
    rcases postTrack_cases s now userId
        { requestId := some id, status := status, assignedTo := assignedTo, notes := notes } with
      ⟨he, hne⟩ | ⟨id', S, r, -, hS, -, -, -, -, hst, -, -⟩
    · exact ⟨hne, he⟩
    · exact absurd ((checkStatus_ok_iff S).1 hst) (hbad S hS)
  · rintro ⟨x, hx, hlen⟩
    rcases postTrack_cases s now userId
        { requestId := some id, status := status, assignedTo := assignedTo, notes := notes } with
      ⟨he, hne⟩ | ⟨id', S, r, -, -, -, -, -, hn, -, -, -⟩
    · exact ⟨hne, he⟩
    · exfalso
      have hx0 : x ≠ "" := by
        rintro rfl
        simp at hlen
      simp [hx, Field.orNull, hx0, checkNotes, Nat.not_le.2 hlen] at hn
  · rintro ⟨S, rfl, hS⟩ hnotes hassignee
    rw [postTrack_valid hs hown hS hnotes hassignee]
    rfl

set_option maxRecDepth 100000 in
/-- C7 (amended) at the scenario: an unknown status and notes of 501 characters
are rejected, notes of exactly 500 characters are accepted. -/
theorem c7_status_and_notes_validation_witness :
    ((postTrack oneRequest 101 42
        { requestId := some 1, status := .str "Done", assignedTo := .undefined,
          notes := .undefined }).1.status ≠ 201) ∧
    ((postTrack oneRequest 101 42
        { requestId := some 1, status := .str "Completed", assignedTo := .undefined,
          notes := .str (letters 501) }).1.status ≠ 201) ∧
    ((postTrack oneRequest 101 42
        { requestId := some 1, status := .str "Completed", assignedTo := .undefined,
          notes := .str (letters 500) }).1.status = 201) :=
  ⟨((c7_status_and_notes_validation oneRequest ⟨_, rfl⟩ 101 42 1 (repairRequest "Pending" 100)
      (.str "Done") .undefined .undefined (by decide)).1
      (by intro S hS; cases hS; decide)).1,
   ((c7_status_and_notes_validation oneRequest ⟨_, rfl⟩ 101 42 1 (repairRequest "Pending" 100)
      (.str "Completed") .undefined (.str (letters 501)) (by decide)).2.1
      ⟨letters 501, rfl, by rw [letters_length]; decide⟩).1,
   (c7_status_and_notes_validation oneRequest ⟨_, rfl⟩ 101 42 1 (repairRequest "Pending" 100)
      (.str "Completed") .undefined (.str (letters 500)) (by decide)).2.2
      ⟨"Completed", rfl, by decide⟩
      (by intro x hx; cases hx; rw [letters_length])
      (by intro x hx; cases hx)⟩

/-! ## C8 -/

set_option maxRecDepth 100000 in
/-- C8 (counterexample): the service type is enumerated, the priority is
absent and the description has exactly 10 characters, yet CreateRequest fails
(500) and stores nothing, because the location has 256 characters, more than
the `STRING(255)` column holds. -/
theorem c8_long_location_rejected :
    "Repair" ∈ serviceTypes ∧ longLocationBody.priority = .undefined ∧
    (letters 10).length = 10 ∧
    postRequest Store.empty 100 42 longLocationBody =
      (postRequestCatch (.tooLong "location"), Store.empty) := by
  decide

/-- C8 (amended): for every CreateRequest call whose service type is one of
the five enumerated values, whose priority is absent or one of the four
enumerated values and whose location is absent or has at most 255 characters,
the call succeeds (201) if and only if the description is a string of 10 to
1000 characters; a call that does not succeed leaves the store as it was. -/
theorem c8_description_bounds (s : Store) (now userId : Nat) (b : CreateBody) (t : String)
    (htype : b.serviceType = .str t) (ht : t ∈ serviceTypes)
    (hprio : b.priority.orDefault "Medium" ∈ priorities)
    (hloc : ∀ x, b.location = .str x → x.length ≤ 255) :
    ((postRequest s now userId b).1.status = 201 ↔
      ∃ d, b.description = .str d ∧ 10 ≤ d.length ∧ d.length ≤ 1000) ∧
    ((postRequest s now userId b).1.status ≠ 201 → (postRequest s now userId b).2 = s) := by
  have ht0 : t ≠ "" := by
    rintro rfl
    revert ht
    decide
  have hcp : checkPriority (some (b.priority.orDefault "Medium")) = .ok () := by
    simp [checkPriority, hprio]
  have hcl := checkLocation_orNull_ok hloc
  have hct : checkServiceType t = .ok () := by simp [checkServiceType, ht]
  constructor
  · constructor
    · intro h
      rcases postRequest_cases s now userId b with ⟨-, hne⟩ | ⟨t', d, -, hd, -, -, hcd, -, -, -, -⟩
      · exact absurd h hne
      · refine ⟨d, hd, ?_⟩
        unfold checkDescription at hcd
        split at hcd
        · assumption
        · cases hcd
    · rintro ⟨d, hd, hlo, hhi⟩
      have hd0 : d ≠ "" := by
        rintro rfl
        simp at hlo
      have hcd : checkDescription d = .ok () := by simp [checkDescription, hlo, hhi]
      have hc := (request_create_ok_iff s now userId t d
        (some (b.priority.orDefault "Medium")) b.location.orNull).2 ⟨hcd, hct, hcp, hcl⟩
      unfold postRequest
      simp [htype, hd, ht0, hd0, hc]
  · intro h
    rcases postRequest_cases s now userId b with ⟨he, -⟩ | ⟨t', d, -, -, -, -, -, -, -, -, he⟩
    · exact he
    · rw [he] at h; exact absurd rfl h

set_option maxRecDepth 100000 in
/-- C8 (amended) on the empty store: descriptions of 10 and of 1000 characters
are accepted, descriptions of 9 and of 1001 characters store nothing. -/
theorem c8_description_bounds_witness :
    (postRequest Store.empty 100 42
      { serviceType := .str "Repair", description := .str (letters 10) }).1.status = 201 ∧
    (postRequest Store.empty 100 42
      { serviceType := .str "Repair", description := .str (letters 1000) }).1.status = 201 ∧
    (postRequest Store.empty 100 42
      { serviceType := .str "Repair", description := .str (letters 9) }).2 = Store.empty ∧
    (postRequest Store.empty 100 42
      { serviceType := .str "Repair", description := .str (letters 1001) }).2 = Store.empty :=
  ⟨(c8_description_bounds Store.empty 100 42
      { serviceType := .str "Repair", description := .str (letters 10) } "Repair" rfl
      (by decide) (by decide) (by intro x hx; cases hx)).1.2
      ⟨letters 10, rfl, by rw [letters_length], by rw [letters_length]; decide⟩,
   (c8_description_bounds Store.empty 100 42
      { serviceType := .str "Repair", description := .str (letters 1000) } "Repair" rfl
      (by decide) (by decide) (by intro x hx; cases hx)).1.2
      ⟨letters 1000, rfl, by rw [letters_length]; decide, by rw [letters_length]⟩,
   (c8_description_bounds Store.empty 100 42
      { serviceType := .str "Repair", description := .str (letters 9) } "Repair" rfl
      (by decide) (by decide) (by intro x hx; cases hx)).2
      (fun h => by
        have := ((c8_description_bounds Store.empty 100 42
          { serviceType := .str "Repair", description := .str (letters 9) } "Repair" rfl
          (by decide) (by decide) (by intro x hx; cases hx)).1.1 h)
        obtain ⟨d, hd, hlo, -⟩ := this
        cases hd
        rw [letters_length] at hlo
        omega),
   (c8_description_bounds Store.empty 100 42
      { serviceType := .str "Repair", description := .str (letters 1001) } "Repair" rfl
      (by decide) (by decide) (by intro x hx; cases hx)).2
      (fun h => by
        have := ((c8_description_bounds Store.empty 100 42
          { serviceType := .str "Repair", description := .str (letters 1001) } "Repair" rfl
          (by decide) (by decide) (by intro x hx; cases hx)).1.1 h)
        obtain ⟨d, hd, -, hhi⟩ := this
        cases hd
        rw [letters_length] at hhi
        omega)⟩

/-! ## C9 -/

/-- Every error caught by the `catch` block of a mutating handler is answered
with status 500, whatever raised it: a model validation rule, a column type or
a failure of the store itself. -/
theorem catch_status (e : StoreError) :
    (postRequestCatch e).status = 500 ∧ (putRequestCatch e).status = 500 ∧
      (postTrackCatch e).status = 500 := ⟨rfl, rfl, rfl⟩

set_option maxRecDepth 100000 in
/-- C9 (code defect): a call that violates a documented constraint on a
supplied value is answered by the handler's `catch` block, with the same
status 500 and the same `error` label as a failure of the store: notes of 501
characters and a status outside the enumeration in RecordStatusTransition, a
description of 9 characters in CreateRequest and in UpdateRequestFields.  Only
a missing required field gets the 400 response. -/
theorem c9_validation_failures_answer_500 :
    postTrack oneRequest 101 42 longNotesBody =
      (postTrackCatch (.validation "Notes cannot exceed 500 characters"), oneRequest) ∧
    postTrack oneRequest 101 42 { requestId := some 1, status := .str "Done" } =
      (postTrackCatch (.invalidEnum "status"), oneRequest) ∧
    postTrackCatch .unavailable =
      { status := 500, body := .failure "Failed to track status" .unavailable } ∧
    postTrackCatch (.validation "Notes cannot exceed 500 characters") =
      { status := 500,
        body := .failure "Failed to track status"
          (.validation "Notes cannot exceed 500 characters") } ∧
    (postRequest Store.empty 100 42
        { serviceType := .str "Repair", description := .str (letters 9) }).1.status =
      (postRequestCatch .unavailable).status ∧
    (putRequest oneRequest 101 42 1 .undefined (.str (letters 9)) .undefined .undefined).1.status =
      (putRequestCatch .unavailable).status ∧
    (postTrack oneRequest 101 42 { requestId := some 1, status := .undefined }).1.status = 400 := by
  decide

/-! ## C10 -/

/-- C10 (code defect): every successful CreateRequest appends one request to
the table, with a fresh id, owned by the caller, with the service type, the
description and the location given, the priority given or `'Medium'`, status
`'Pending'` whatever else the body contains, and without any ledger row.
GetStatusHistory asked by the owner for the new request nevertheless answers
with the 500 response of its `catch` block, not with an empty history. -/
theorem c10_created_request (s : Store) (hs : Reachable s) (now userId : Nat) (b : CreateBody)
    (h : (postRequest s now userId b).1.status = 201) :
    ∃ r, (postRequest s now userId b).2.requests = s.requests ++ [r] ∧
      (postRequest s now userId b).2.tracking = s.tracking ∧
      (∀ x ∈ s.requests, x.id ≠ r.id) ∧
      r.userId = userId ∧
      b.serviceType = .str r.serviceType ∧
      b.description = .str r.description ∧
      r.location = b.location.orNull ∧
      r.priority = some (b.priority.orDefault "Medium") ∧
      r.status = "Pending" ∧
      (postRequest s now userId b).2.ledger r.id = [] ∧
      getHistory (postRequest s now userId b).2 userId r.id =
        getHistoryCatch (.unknownColumn "createdAt") := by
  have hinv := reachable_inv hs
  rcases postRequest_cases s now userId b with ⟨-, hne⟩ | ⟨t, d, ht, hd, -, -, -, -, -, -, he⟩
  · exact absurd h hne
  · have hinv2 := inv_insertRequest hinv
      (newRequest s now userId t d (some (b.priority.orDefault "Medium")) b.location.orNull)
      rfl rfl
    refine ⟨newRequest s now userId t d (some (b.priority.orDefault "Medium")) b.location.orNull,
      ?_, ?_, ?_, rfl, ht, hd, rfl, rfl, rfl, ?_, ?_⟩
    · rw [he]; rfl
    · rw [he]; rfl
    · intro x hx
      have := hinv.idLt x hx
      simp only [newRequest]
      omega
    · rw [he]
      apply ledgerStatus_of_no_rows
      intro x hx
      have := hinv.ledgerLt x hx
      simp only [newRequest]
      omega
    · rw [he]
      have hmem : newRequest s now userId t d (some (b.priority.orDefault "Medium"))
          b.location.orNull ∈ (s.insertRequest (newRequest s now userId t d
            (some (b.priority.orDefault "Medium")) b.location.orNull)).requests := by
        simp [Store.insertRequest]
      exact getHistory_owned (findOne_of_mem hinv2 hmem)

/-- C10 at the scenario: user 7 creates a request whose body carries
`status: 'Completed'`. -/
theorem c10_created_request_witness :
    (postRequest oneRequest 105 7 statusSmugglingBody).1.status = 201 ∧
    ∃ r, (postRequest oneRequest 105 7 statusSmugglingBody).2.requests =
        oneRequest.requests ++ [r] ∧
      (postRequest oneRequest 105 7 statusSmugglingBody).2.tracking = oneRequest.tracking ∧
      (∀ x ∈ oneRequest.requests, x.id ≠ r.id) ∧
      r.userId = 7 ∧
      statusSmugglingBody.serviceType = .str r.serviceType ∧
      statusSmugglingBody.description = .str r.description ∧
      r.location = statusSmugglingBody.location.orNull ∧
      r.priority = some (statusSmugglingBody.priority.orDefault "Medium") ∧
      r.status = "Pending" ∧
      (postRequest oneRequest 105 7 statusSmugglingBody).2.ledger r.id = [] ∧
      getHistory (postRequest oneRequest 105 7 statusSmugglingBody).2 7 r.id =
        getHistoryCatch (.unknownColumn "createdAt") :=
  ⟨by decide, c10_created_request oneRequest ⟨_, rfl⟩ 105 7 statusSmugglingBody (by decide)⟩

/-! ## The ordered listing of `GET /api/requests` -/

theorem createdAt_request_column : "createdAt" ∈ ServiceRequest.columns := by decide

theorem precedes_createdAt (a b : ServiceRequest) :
    ServiceRequest.precedes "createdAt" a b ↔ b.createdAt ≤ a.createdAt := by
  simp [ServiceRequest.precedes, ServiceRequest.attribute, Cell.le]

/-- The rows `GET /api/requests` reads for a user: the user's rows, sorted by
the handler's `ORDER BY`. -/
theorem getRequests_rows (s : Store) (userId : Nat) :
    getRequests s userId =
      { status := 200,
        body := .listed
          ("Retrieved " ++
            toString ((s.requests.filter (fun r => r.userId == userId)).insertionSort
              (ServiceRequest.precedes "createdAt")).length ++ " service requests")
          (((s.requests.filter (fun r => r.userId == userId)).insertionSort
            (ServiceRequest.precedes "createdAt")).map listItem) } := by
  unfold getRequests ServiceRequest.findAll
  rw [if_pos createdAt_request_column]

theorem sorted_by_createdAt (l : List ServiceRequest) :
    (l.insertionSort (ServiceRequest.precedes "createdAt")).Pairwise
      (fun a b => b.createdAt ≤ a.createdAt) := by
  haveI : IsTotal ServiceRequest (ServiceRequest.precedes "createdAt") :=
    ⟨fun a b => by simp only [precedes_createdAt]; exact Nat.le_total _ _⟩
  haveI : IsTrans ServiceRequest (ServiceRequest.precedes "createdAt") :=
    ⟨fun a b c => by simp only [precedes_createdAt]; exact fun h1 h2 => Nat.le_trans h2 h1⟩
  have h := List.sorted_insertionSort (ServiceRequest.precedes "createdAt") l
  exact List.Pairwise.imp (fun {a b} hab => (precedes_createdAt a b).1 hab) h

/-! ## C11 -/

/-- C11: for every store and every CreateRequest that succeeds (201) for an
owner, ListRequests of that owner called on the resulting store answers 200
with a list that contains the created request, with the id returned by the
creation and status `'Pending'`, and that has exactly one more element than
the list ListRequests answered before the creation. -/
theorem c11_created_request_is_listed (s : Store) (now ownerId : Nat) (b : CreateBody)
    (h : (postRequest s now ownerId b).1.status = 201) :
    ∃ (r : ServiceRequest) (before after : List ServiceRequest),
      (postRequest s now ownerId b).1 = postRequestCreated r ∧
      r.status = "Pending" ∧
      getRequests s ownerId =
        { status := 200,
          body := .listed ("Retrieved " ++ toString before.length ++ " service requests")
            (before.map listItem) } ∧
      getRequests (postRequest s now ownerId b).2 ownerId =
        { status := 200,
          body := .listed ("Retrieved " ++ toString after.length ++ " service requests")
            (after.map listItem) } ∧
      r ∈ after ∧ listItem r ∈ after.map listItem ∧
      after.length = before.length + 1 := by
  rcases postRequest_cases s now ownerId b with ⟨-, hne⟩ | ⟨t, d, -, -, -, -, -, -, -, -, he⟩
  · exact absurd h hne
  · have h1 : (postRequest s now ownerId b).1 = postRequestCreated
        (newRequest s now ownerId t d (some (b.priority.orDefault "Medium")) b.location.orNull) := by
      rw [he]
    have h2 : (postRequest s now ownerId b).2 = s.insertRequest
        (newRequest s now ownerId t d (some (b.priority.orDefault "Medium")) b.location.orNull) := by
      rw [he]
    rw [h1, h2]
    refine ⟨_, _, _, rfl, rfl, getRequests_rows s ownerId, getRequests_rows _ ownerId, ?_, ?_, ?_⟩
    · rw [List.Perm.mem_iff (List.perm_insertionSort _ _)]
      simp [Store.insertRequest, newRequest]
    · apply List.mem_map_of_mem
      rw [List.Perm.mem_iff (List.perm_insertionSort _ _)]
      simp [Store.insertRequest, newRequest]
    · rw [List.length_insertionSort, List.length_insertionSort]
      simp [Store.insertRequest, newRequest, List.filter_append]

/-- C11 at the scenario: user 42 owns request 1 and creates a second request;
the listing grows from one element to two and contains the new request. -/
theorem c11_created_request_is_listed_witness :
    (postRequest oneRequest 110 42 repairBody).1.status = 201 ∧
    ∃ (r : ServiceRequest) (before after : List ServiceRequest),
      (postRequest oneRequest 110 42 repairBody).1 = postRequestCreated r ∧
      r.status = "Pending" ∧
      getRequests oneRequest 42 =
        { status := 200,
          body := .listed ("Retrieved " ++ toString before.length ++ " service requests")
            (before.map listItem) } ∧
      getRequests (postRequest oneRequest 110 42 repairBody).2 42 =
        { status := 200,
          body := .listed ("Retrieved " ++ toString after.length ++ " service requests")
            (after.map listItem) } ∧
      r ∈ after ∧ listItem r ∈ after.map listItem ∧
      after.length = before.length + 1 :=
  ⟨by decide, c11_created_request_is_listed oneRequest 110 42 repairBody (by decide)⟩

/-! ## C12 -/

/-- C12: for every store and every owner, ListRequests answers 200 with the
items of a list of rows that is a rearrangement of the rows of the table
owned by that user (each row once, no row of another user) and that is
ordered by creation timestamp, newest first.  In a reachable store no two
items carry the same id. -/
theorem c12_list_is_owned_and_ordered (s : Store) (ownerId : Nat) :
    ∃ rows : List ServiceRequest,
      getRequests s ownerId =
        { status := 200,
          body := .listed ("Retrieved " ++ toString rows.length ++ " service requests")
            (rows.map listItem) } ∧
      rows.Perm (s.requests.filter (fun r => r.userId == ownerId)) ∧
      (∀ r, r ∈ rows ↔ r ∈ s.requests ∧ r.userId = ownerId) ∧
      rows.Pairwise (fun a b => b.createdAt ≤ a.createdAt) ∧
      (Reachable s → ((rows.map listItem).map (fun i => i.id)).Nodup) := by
  refine ⟨_, getRequests_rows s ownerId, List.perm_insertionSort _ _, ?_,
    sorted_by_createdAt _, ?_⟩
  · intro r
    rw [List.Perm.mem_iff (List.perm_insertionSort _ _)]
    simp [List.mem_filter]
  · intro hs
    have hnd := (reachable_inv hs).idNodup
    have hsub : ((s.requests.filter (fun r => r.userId == ownerId)).map (fun r => r.id)).Nodup :=
      hnd.sublist ((List.filter_sublist _).map _)
    have hperm := (List.perm_insertionSort (ServiceRequest.precedes "createdAt")
      (s.requests.filter (fun r => r.userId == ownerId))).map (fun r => r.id)
    rw [List.map_map]
    exact (List.Perm.nodup_iff hperm).2 hsub

/-- C12 at a store with three requests: the listing of user 42 is request 3
followed by request 1; request 2, owned by user 7, is not in it. -/
theorem c12_list_is_owned_and_ordered_witness :
    (getRequests threeRequests 42 =
      { status := 200,
        body := .listed "Retrieved 2 service requests"
          [listItem { repairRequest "Pending" 110 with id := 3, createdAt := 110 },
           listItem (repairRequest "Pending" 100)] }) ∧
    ∃ rows : List ServiceRequest,
      getRequests threeRequests 42 =
        { status := 200,
          body := .listed ("Retrieved " ++ toString rows.length ++ " service requests")
            (rows.map listItem) } ∧
      rows.Perm (threeRequests.requests.filter (fun r => r.userId == 42)) ∧
      (∀ r, r ∈ rows ↔ r ∈ threeRequests.requests ∧ r.userId = 42) ∧
      rows.Pairwise (fun a b => b.createdAt ≤ a.createdAt) ∧
      (Reachable threeRequests → ((rows.map listItem).map (fun i => i.id)).Nodup) :=
  ⟨by decide, c12_list_is_owned_and_ordered threeRequests 42⟩

/-! ## Fields of a row after `request.update` -/

theorem apply_serviceType (p : Patch) (now : Nat) (r : ServiceRequest) :
    (p.apply now r).serviceType = p.serviceType.assign r.serviceType := by
  unfold Patch.apply
  simp only
  split
  · next h =>
    have := congrArg ServiceRequest.serviceType h
    simpa using this.symm
  · rfl

theorem apply_description (p : Patch) (now : Nat) (r : ServiceRequest) :
    (p.apply now r).description = p.description.assign r.description := by
  unfold Patch.apply
  simp only
  split
  · next h =>
    have := congrArg ServiceRequest.description h
    simpa using this.symm
  · rfl

theorem apply_priority (p : Patch) (now : Nat) (r : ServiceRequest) :
    (p.apply now r).priority = p.priority.assignNullable r.priority := by
  unfold Patch.apply
  simp only
  split
  · next h =>
    have := congrArg ServiceRequest.priority h
    simpa using this.symm
  · rfl

theorem apply_location (p : Patch) (now : Nat) (r : ServiceRequest) :
    (p.apply now r).location = p.location.assignNullable r.location := by
  unfold Patch.apply
  simp only
  split
  · next h =>
    have := congrArg ServiceRequest.location h
    simpa using this.symm
  · rfl

/-! ## C13 -/

/-- C13: in a reachable store, a successful UpdateRequestFields (200) on a
request owned by the caller replaces that row by one in which each supplied
field has the supplied value (a supplied `null` empties `priority` or
`location`), each field not supplied keeps its value, and the id, the owner,
the status, the creation and completion timestamps are as before; the time of
last update stays or becomes the current time.  Every other row of the table,
the ledger and both counters are unchanged, and GetRequest then returns the
new row. -/
theorem c13_update_changes_supplied_fields_only (s : Store) (hs : Reachable s)
    (now userId id : Nat) (serviceType description priority location : Field)
    (h : (putRequest s now userId id serviceType description priority location).1.status = 200) :
    ∃ old new : ServiceRequest,
      ServiceRequest.findOne s id userId = some old ∧
      (putRequest s now userId id serviceType description priority location).2.requests =
        s.requests.map (fun x => if x = old then new else x) ∧
      (putRequest s now userId id serviceType description priority location).2.tracking =
        s.tracking ∧
      (putRequest s now userId id serviceType description priority location).2.nextRequestId =
        s.nextRequestId ∧
      (putRequest s now userId id serviceType description priority location).2.nextTrackingId =
        s.nextTrackingId ∧
      getRequest (putRequest s now userId id serviceType description priority location).2 userId id =
        { status := 200, body := .fetched new } ∧
      ((∃ v, serviceType = .str v ∧ new.serviceType = v) ∨
        (serviceType = .undefined ∧ new.serviceType = old.serviceType)) ∧
      ((∃ v, description = .str v ∧ new.description = v) ∨
        (description = .undefined ∧ new.description = old.description)) ∧
      ((∃ v, priority = .str v ∧ new.priority = some v) ∨ (priority = .null ∧ new.priority = none) ∨
        (priority = .undefined ∧ new.priority = old.priority)) ∧
      ((∃ v, location = .str v ∧ new.location = some v) ∨ (location = .null ∧ new.location = none) ∨
        (location = .undefined ∧ new.location = old.location)) ∧
      new.id = old.id ∧ new.userId = old.userId ∧ new.status = old.status ∧
      new.createdAt = old.createdAt ∧ new.completedAt = old.completedAt ∧
      (new.updatedAt = old.updatedAt ∨ new.updatedAt = now) := by
  have hinv := reachable_inv hs
  rcases putRequest_cases s now userId id serviceType description priority location with
    ⟨-, hne⟩ | ⟨old, hf, hc, he⟩
  · exact absurd h hne
  · have hmem := findOne_some hf
    have hreq : (s.updateRequest old.id (Patch.apply
        { serviceType := serviceType, description := description, priority := priority,
          location := location } now)).requests =
        s.requests.map (fun x => if x = old then Patch.apply
          { serviceType := serviceType, description := description, priority := priority,
            location := location } now old else x) := by
      simp only [Store.updateRequest]
      apply List.map_congr_left
      intro x hx
      by_cases hxe : x = old
      · subst hxe; simp
      · have hid : x.id ≠ old.id := fun hid =>
          hxe (List.inj_on_of_nodup_map hinv.idNodup hx hmem.1 hid)
        simp [hxe, hid]
    have hget : ServiceRequest.findOne (s.updateRequest old.id (Patch.apply
        { serviceType := serviceType, description := description, priority := priority,
          location := location } now)) id userId = some (Patch.apply
        { serviceType := serviceType, description := description, priority := priority,
          location := location } now old) := by
      rw [findOne_updateRequest _ _ _ (apply_id _ _) (apply_userId _ _), hf]
      simp
    rw [he]
    refine ⟨old, _, hf, hreq, rfl, rfl, rfl, ?_, ?_, ?_, ?_, ?_, apply_id _ _ _,
      apply_userId _ _ _, ?_, ?_, ?_, ?_⟩
    · simp only [getRequest, hget]
    · cases serviceType with
      | undefined => right; exact ⟨rfl, by rw [apply_serviceType]; rfl⟩
      | null => simp [Patch.check, bind, Except.bind] at hc
      | str v => left; exact ⟨v, rfl, by rw [apply_serviceType]; rfl⟩
    · cases description with
      | undefined => right; exact ⟨rfl, by rw [apply_description]; rfl⟩
      | null =>
        cases serviceType <;> simp [Patch.check, bind, Except.bind, pure, Except.pure] at hc
      | str v => left; exact ⟨v, rfl, by rw [apply_description]; rfl⟩
    · cases priority with
      | undefined => right; right; exact ⟨rfl, by rw [apply_priority]; rfl⟩
      | null => right; left; exact ⟨rfl, by rw [apply_priority]; rfl⟩
      | str v => left; exact ⟨v, rfl, by rw [apply_priority]; rfl⟩
    · cases location with
      | undefined => right; right; exact ⟨rfl, by rw [apply_location]; rfl⟩
      | null => right; left; exact ⟨rfl, by rw [apply_location]; rfl⟩
      | str v => left; exact ⟨v, rfl, by rw [apply_location]; rfl⟩
    · rw [apply_status]; rfl
    · unfold Patch.apply; simp only; split <;> rfl
    · unfold Patch.apply; simp only; split <;> rfl
    · unfold Patch.apply; simp only; split
      · left; rfl
      · right; rfl

/-- C13 at the scenario: the owner of request 1, which is `'Assigned'` and has
one ledger row, changes its priority to `'Low'` and empties nothing else. -/
theorem c13_update_changes_supplied_fields_only_witness :
    (putRequest assignedStore 120 42 1 .undefined .undefined (.str "Low") .undefined).1.status
      = 200 ∧
    (putRequest assignedStore 120 42 1 .undefined .undefined (.str "Low") .undefined).2 =
      { assignedStore with
        requests := [{ repairRequest "Assigned" 120 with priority := some "Low" }] } ∧
    ∃ old new : ServiceRequest,
      ServiceRequest.findOne assignedStore 1 42 = some old ∧
      (putRequest assignedStore 120 42 1 .undefined .undefined (.str "Low") .undefined).2.requests =
        assignedStore.requests.map (fun x => if x = old then new else x) ∧
      (putRequest assignedStore 120 42 1 .undefined .undefined (.str "Low") .undefined).2.tracking =
        assignedStore.tracking ∧
      (putRequest assignedStore 120 42 1 .undefined .undefined (.str "Low")
        .undefined).2.nextRequestId = assignedStore.nextRequestId ∧
      (putRequest assignedStore 120 42 1 .undefined .undefined (.str "Low")
        .undefined).2.nextTrackingId = assignedStore.nextTrackingId ∧
      getRequest (putRequest assignedStore 120 42 1 .undefined .undefined (.str "Low")
        .undefined).2 42 1 = { status := 200, body := .fetched new } ∧
      ((∃ v, Field.undefined = .str v ∧ new.serviceType = v) ∨
        (Field.undefined = .undefined ∧ new.serviceType = old.serviceType)) ∧
      ((∃ v, Field.undefined = .str v ∧ new.description = v) ∨
        (Field.undefined = .undefined ∧ new.description = old.description)) ∧
      ((∃ v, Field.str "Low" = .str v ∧ new.priority = some v) ∨
        (Field.str "Low" = .null ∧ new.priority = none) ∨
        (Field.str "Low" = .undefined ∧ new.priority = old.priority)) ∧
      ((∃ v, Field.undefined = .str v ∧ new.location = some v) ∨
        (Field.undefined = .null ∧ new.location = none) ∨
        (Field.undefined = .undefined ∧ new.location = old.location)) ∧
      new.id = old.id ∧ new.userId = old.userId ∧ new.status = old.status ∧
      new.createdAt = old.createdAt ∧ new.completedAt = old.completedAt ∧
      (new.updatedAt = old.updatedAt ∨ new.updatedAt = 120) :=
  ⟨by decide, by decide,
   c13_update_changes_supplied_fields_only assignedStore ⟨_, rfl⟩ 120 42 1 .undefined .undefined
     (.str "Low") .undefined (by decide)⟩

/-! ## C14 -/

/-- C14: in a reachable store, after a successful DeleteRequest (200) by the
owner the table is the old one without the rows of that id, so every other
request is still there, unchanged and in place, and answers GetRequest as
before; GetRequest of the deleted id answers 404 and the listing of the owner
has no item with that id.  The ledger rows of the deleted request are removed
with it (cascade), the ledger rows of the other requests are kept. -/
theorem c14_delete_removes_only_the_request (s : Store) (hs : Reachable s) (userId id : Nat)
    (h : (deleteRequest s userId id).1.status = 200) :
    (∃ old, ServiceRequest.findOne s id userId = some old) ∧
    (deleteRequest s userId id).2.requests = s.requests.filter (fun x => x.id != id) ∧
    (deleteRequest s userId id).2.tracking = s.tracking.filter (fun t => t.requestId != id) ∧
    getRequest (deleteRequest s userId id).2 userId id =
      { status := 404,
        body := .notFound "Service request not found"
          (some "The requested service request does not exist or you do not have access") } ∧
    (∃ rows : List ServiceRequest,
      getRequests (deleteRequest s userId id).2 userId =
        { status := 200,
          body := .listed ("Retrieved " ++ toString rows.length ++ " service requests")
            (rows.map listItem) } ∧
      ∀ i ∈ rows.map listItem, i.id ≠ id) ∧
    (∀ x ∈ s.requests, x.id ≠ id →
      x ∈ (deleteRequest s userId id).2.requests ∧
      getRequest (deleteRequest s userId id).2 x.userId x.id = getRequest s x.userId x.id) := by
  have hinv := reachable_inv hs
  rcases deleteRequest_cases s userId id with ⟨-, hne⟩ | ⟨old, hf, he⟩
  · exact absurd h hne
  · have hmem := findOne_some hf
    have h2 : (deleteRequest s userId id).2 = ServiceRequest.destroy s id := by
      rw [he, hmem.2.1]
    have hinv2 : (ServiceRequest.destroy s id).Inv := inv_destroy hinv id
    rw [h2]
    refine ⟨⟨old, hf⟩, rfl, rfl, ?_, ⟨_, getRequests_rows _ userId, ?_⟩, ?_⟩
    · have hnone : ServiceRequest.findOne (ServiceRequest.destroy s id) id userId = none := by
        apply findOne_absent
        intro r hr
        simp only [ServiceRequest.destroy, List.mem_filter] at hr
        simpa using hr.2
      simp only [getRequest, hnone]
    · intro i hi
      obtain ⟨r, hr, rfl⟩ := List.mem_map.1 hi
      rw [List.Perm.mem_iff (List.perm_insertionSort _ _)] at hr
      simp only [ServiceRequest.destroy, List.mem_filter] at hr
      simpa [listItem] using hr.1.2
    · intro x hx hne
      have hx2 : x ∈ (ServiceRequest.destroy s id).requests := by
        simp only [ServiceRequest.destroy, List.mem_filter]
        exact ⟨hx, by simpa using hne⟩
      refine ⟨hx2, ?_⟩
      simp only [getRequest, findOne_of_mem hinv hx, findOne_of_mem hinv2 hx2]

/-- C14 at a store with three requests: user 42 deletes request 1; requests 2
and 3 stay as they were and the listing of user 42 is request 3 alone. -/
theorem c14_delete_removes_only_the_request_witness :
    (getRequests (deleteRequest threeRequests 42 1).2 42 =
      { status := 200,
        body := .listed "Retrieved 1 service requests"
          [listItem { repairRequest "Pending" 110 with id := 3, createdAt := 110 }] }) ∧
    (∃ old, ServiceRequest.findOne threeRequests 1 42 = some old) ∧
    (deleteRequest threeRequests 42 1).2.requests =
      threeRequests.requests.filter (fun x => x.id != 1) ∧
    (deleteRequest threeRequests 42 1).2.tracking =
      threeRequests.tracking.filter (fun t => t.requestId != 1) ∧
    getRequest (deleteRequest threeRequests 42 1).2 42 1 =
      { status := 404,
        body := .notFound "Service request not found"
          (some "The requested service request does not exist or you do not have access") } ∧
    (∃ rows : List ServiceRequest,
      getRequests (deleteRequest threeRequests 42 1).2 42 =
        { status := 200,
          body := .listed ("Retrieved " ++ toString rows.length ++ " service requests")
            (rows.map listItem) } ∧
      ∀ i ∈ rows.map listItem, i.id ≠ 1) ∧
    (∀ x ∈ threeRequests.requests, x.id ≠ 1 →
      x ∈ (deleteRequest threeRequests 42 1).2.requests ∧
      getRequest (deleteRequest threeRequests 42 1).2 x.userId x.id =
        getRequest threeRequests x.userId x.id) :=
  ⟨by decide, c14_delete_removes_only_the_request threeRequests ⟨_, rfl⟩ 42 1 (by decide)⟩

/-! ## C15 -/

/-- C15 (code defect): at the end of the scenario (request 1 created, then
moved to `'Assigned'`, then to `'Pending'`, both transitions answered 201) the
ledger table holds the two rows of request 1, `'Assigned'` then `'Pending'` in
order of insertion, but GetStatusHistory by the owner answers 500
`'Failed to fetch status history'` instead of the two entries
`['Pending', 'Assigned']`. -/
theorem c15_history_of_scenario_fails :
    (postTrack oneRequest 101 42 assignBody).1.status = 201 ∧
    (postTrack assignedStore 102 42 revertBody).1.status = 201 ∧
    (revertedStore.ledger 1).map (fun t => t.status) = ["Assigned", "Pending"] ∧
    ServiceRequest.findOne revertedStore 1 42 = some (repairRequest "Pending" 102) ∧
    getHistory revertedStore 42 1 =
      { status := 500,
        body := .failure "Failed to fetch status history" (.unknownColumn "createdAt") } := by
  decide

/-! ## C16 -/

/-- C16 (code defect): in every reachable store, for every stored request,
both reads asked by the owner end in their `catch` blocks: GetLatestStatus
answers 500 `'Failed to fetch current status'` and GetStatusHistory answers
500 `'Failed to fetch status history'`.  Neither returns a latest entry or a
history that could be compared. -/
theorem c16_both_reads_fail (s : Store) (hs : Reachable s) (r : ServiceRequest)
    (hr : r ∈ s.requests) :
    getCurrent s r.userId r.id =
      { status := 500,
        body := .failure "Failed to fetch current status" (.unknownColumn "createdAt") } ∧
    getHistory s r.userId r.id =
      { status := 500,
        body := .failure "Failed to fetch status history" (.unknownColumn "createdAt") } :=
  ⟨getCurrent_owned (findOne_of_mem (reachable_inv hs) hr),
   getHistory_owned (findOne_of_mem (reachable_inv hs) hr)⟩

/-- C16 at a request without transitions: request 1 of user 42 has no ledger
row, and both reads answer 500. -/
theorem c16_both_reads_fail_witness :
    oneRequest.ledger 1 = [] ∧
    getCurrent oneRequest 42 1 =
      { status := 500,
        body := .failure "Failed to fetch current status" (.unknownColumn "createdAt") } ∧
    getHistory oneRequest 42 1 =
      { status := 500,
        body := .failure "Failed to fetch status history" (.unknownColumn "createdAt") } :=
  ⟨by decide,
   c16_both_reads_fail oneRequest ⟨_, rfl⟩ (repairRequest "Pending" 100) (by decide)⟩

/-! ## C17 -/

/-- C17: the ledger is append-only under RecordStatusTransition,
CreateRequest and UpdateRequestFields.  A successful RecordStatusTransition
(201) appends exactly one row to the ledger table, with the next identifier,
the given request id and status, and the given assignee and notes (`none`
when the field is absent, `null` or empty), and leaves the rows already there
as they were; a refused RecordStatusTransition, every CreateRequest and every
UpdateRequestFields leave the ledger table as it was.  The read handlers
return a response only. -/
theorem c17_ledger_is_append_only (s : Store) :
    (∀ now userId b, (postTrack s now userId b).1.status = 201 →
      ∃ id S, b.requestId = some id ∧ b.status = .str S ∧
        (postTrack s now userId b).2.tracking =
          s.tracking ++
            [{ id := s.nextTrackingId, requestId := id, status := S,
               assignedTo := b.assignedTo.orNull, notes := b.notes.orNull }]) ∧
    (∀ now userId b, (postTrack s now userId b).1.status ≠ 201 →
      (postTrack s now userId b).2.tracking = s.tracking) ∧
    (∀ now userId b, (postRequest s now userId b).2.tracking = s.tracking) ∧
    (∀ now userId id serviceType description priority location,
      (putRequest s now userId id serviceType description priority location).2.tracking =
        s.tracking) := by
  refine ⟨?_, ?_, ?_, ?_⟩
  · intro now userId b h
    rcases postTrack_cases s now userId b with
      ⟨-, hne⟩ | ⟨id, S, request, hid, hS, -, -, -, -, -, -, he⟩
    · exact absurd h hne
    · exact ⟨id, S, hid, hS, by rw [he]; rfl⟩
  · intro now userId b h
    rcases postTrack_cases s now userId b with
      ⟨he, -⟩ | ⟨id, S, request, -, -, -, -, -, -, -, -, he⟩
    · rw [he]
    · rw [he] at h; exact absurd rfl h
  · intro now userId b
    rcases postRequest_cases s now userId b with ⟨he, -⟩ | ⟨t, d, -, -, -, -, -, -, -, -, he⟩
    · rw [he]
    · rw [he]; rfl
  · intro now userId id st d p l
    rcases putRequest_cases s now userId id st d p l with ⟨he, -⟩ | ⟨request, -, -, he⟩
    · rw [he]
    · rw [he]; rfl

/-- C17 at the scenario: the transition back to `'Pending'` appends row 2 to
the ledger and keeps row 1 (`'Assigned'`, assignee Jane); a creation and an
update leave both rows. -/
theorem c17_ledger_is_append_only_witness :
    (postTrack assignedStore 102 42 revertBody).2.tracking =
      [{ id := 1, requestId := 1, status := "Assigned", assignedTo := some "Jane", notes := none },
       { id := 2, requestId := 1, status := "Pending", assignedTo := none, notes := none }] ∧
    (∃ id S, revertBody.requestId = some id ∧ revertBody.status = .str S ∧
      (postTrack assignedStore 102 42 revertBody).2.tracking =
        assignedStore.tracking ++
          [{ id := assignedStore.nextTrackingId, requestId := id, status := S,
             assignedTo := revertBody.assignedTo.orNull, notes := revertBody.notes.orNull }]) ∧
    (postRequest assignedStore 103 7 statusSmugglingBody).2.tracking = assignedStore.tracking ∧
    (putRequest assignedStore 104 42 1 .undefined .undefined (.str "Low") .undefined).2.tracking =
      assignedStore.tracking :=
  ⟨by decide,
   (c17_ledger_is_append_only assignedStore).1 102 42 revertBody (by decide),
   (c17_ledger_is_append_only assignedStore).2.2.1 103 7 statusSmugglingBody,
   (c17_ledger_is_append_only assignedStore).2.2.2 104 42 1 .undefined .undefined (.str "Low")
     .undefined⟩

/-! ## C18 -/

/-- C18 (code defect): whenever RecordStatusTransition succeeds it returns the
identifier of the new ledger row as `trackingId`, but GetStatusHistory asked
next by the same user for that request answers with the 500 response of its
`catch` block: no item is returned, so none carries that identifier. -/
theorem c18_tracking_id_not_in_history (s : Store) (now userId : Nat) (b : TrackBody)
    (h : (postTrack s now userId b).1.status = 201) :
    ∃ id S, b.requestId = some id ∧
      (postTrack s now userId b).1 =
        { status := 201,
          body := .tracked "Status update recorded successfully" s.nextTrackingId id S none } ∧
      (∃ t ∈ (postTrack s now userId b).2.ledger id, t.id = s.nextTrackingId) ∧
      getHistory (postTrack s now userId b).2 userId id =
        { status := 500,
          body := .failure "Failed to fetch status history" (.unknownColumn "createdAt") } := by
  rcases postTrack_cases s now userId b with
    ⟨-, hne⟩ | ⟨id, S, request, hid, -, -, -, hf, -, -, -, he⟩
  · exact absurd h hne
  · have hf2 := @findOne_tracked s now request
      (newTracking s id S b.assignedTo.orNull b.notes.orNull) id userId hf
    refine ⟨id, S, hid, by rw [he]; rfl, ?_, by rw [he]; exact getHistory_owned hf2⟩
    rw [he]
    refine ⟨newTracking s id S b.assignedTo.orNull b.notes.orNull, ?_, rfl⟩
    simp [Store.ledger, Store.tracked, Store.updateRequest, Store.insertTracking, newTracking]

/-- C18 at the scenario: the transition of request 1 to `'Assigned'` returns
`trackingId` 1, and the history asked next answers 500. -/
theorem c18_tracking_id_not_in_history_witness :
    (postTrack oneRequest 101 42 assignBody).1.status = 201 ∧
    ∃ id S, assignBody.requestId = some id ∧
      (postTrack oneRequest 101 42 assignBody).1 =
        { status := 201,
          body := .tracked "Status update recorded successfully" oneRequest.nextTrackingId id S
            none } ∧
      (∃ t ∈ (postTrack oneRequest 101 42 assignBody).2.ledger id,
        t.id = oneRequest.nextTrackingId) ∧
      getHistory (postTrack oneRequest 101 42 assignBody).2 42 id =
        { status := 500,
          body := .failure "Failed to fetch status history" (.unknownColumn "createdAt") } :=
  ⟨by decide, c18_tracking_id_not_in_history oneRequest 101 42 assignBody (by decide)⟩

/-! ## C19 -/

/-- C19: `verifyToken` calls `next` exactly when the `Authorization` header
has a non-empty second space-separated part and `jwt.verify` accepts it, and
then `req.userId` (and `req.userEmail`) are the ones decoded from the token.
Without header, without a second part or with an empty one it answers 401
`'No token provided'`; with an expired token 401 `'Token expired'`; with any
other verification failure 403 `'Invalid token'`; in these cases `next` is not
called. -/
theorem c19_verify_token_gate (jwtVerify : String → JwtOutcome) (req : AuthRequest) :
    (∀ req', verifyToken jwtVerify req = .next req' ↔
      ∃ token id email, req.token = some token ∧ token ≠ "" ∧
        jwtVerify token = .decoded id email ∧
        req' = { req with userId := some id, userEmail := some email }) ∧
    (req.authorization = none → req.token = none) ∧
    ((req.token = none ∨ req.token = some "") →
      verifyToken jwtVerify req =
        .respond { status := 401,
                   body := .notFound "No token provided"
                     (some "Authentication required. Please log in.") }) ∧
    (∀ token, req.token = some token → token ≠ "" → jwtVerify token = .expired →
      verifyToken jwtVerify req =
        .respond { status := 401,
                   body := .notFound "Token expired"
                     (some "Your session has expired. Please log in again.") }) ∧
    (∀ token, req.token = some token → token ≠ "" → jwtVerify token = .failed →
      verifyToken jwtVerify req =
        .respond { status := 403,
                   body := .notFound "Invalid token"
                     (some "Authentication failed. Please log in again.") }) := by
  refine ⟨?_, ?_, ?_, ?_, ?_⟩
  · intro req'
    unfold verifyToken
    cases ht : req.token with
    | none => simp
    | some token =>
      by_cases h0 : token = ""
      · simp [h0]
      · cases hv : jwtVerify token with
        | decoded id email =>
          simp only [h0, if_false, hv, Middleware.next.injEq]
          constructor
          · intro h
            exact ⟨token, id, email, rfl, h0, hv, h.symm⟩
          · rintro ⟨token', id', email', htok, -, hv', rfl⟩
            cases htok
            rw [hv] at hv'
            cases hv'
            rfl
        | expired =>
          simp only [h0, if_false, hv]
          constructor
          · intro h; cases h
          · rintro ⟨token', id', email', htok, -, hv', -⟩
            cases htok
            rw [hv] at hv'
            cases hv'
        | failed =>
          simp only [h0, if_false, hv]
          constructor
          · intro h; cases h
          · rintro ⟨token', id', email', htok, -, hv', -⟩
            cases htok
            rw [hv] at hv'
            cases hv'
  · intro h
    simp [AuthRequest.token, h]
  · intro h
    unfold verifyToken
    rcases h with h | h <;> simp [h, noTokenResponse]
  · intro token ht h0 hv
    unfold verifyToken
    simp [ht, h0, hv, tokenExpiredResponse]
  · intro token ht h0 hv
    unfold verifyToken
    simp [ht, h0, hv, invalidTokenResponse]

/-- C19 on four headers: `Bearer good` passes with user 42, a header without
a token and no header at all get 401, `Bearer old` gets 401 `'Token expired'`
and `Bearer forged` gets 403. -/
theorem c19_verify_token_gate_witness :
    verifyToken demoVerify { authorization := some "Bearer good" } =
      .next { authorization := some "Bearer good", userId := some 42,
              userEmail := some "ann@example.com" } ∧
    verifyToken demoVerify { authorization := some "Bearer" } = .respond noTokenResponse ∧
    verifyToken demoVerify { authorization := none } = .respond noTokenResponse ∧
    verifyToken demoVerify { authorization := some "Bearer old" } =
      .respond tokenExpiredResponse ∧
    verifyToken demoVerify { authorization := some "Bearer forged" } =
      .respond invalidTokenResponse :=
  ⟨((c19_verify_token_gate demoVerify { authorization := some "Bearer good" }).1 _).2
      ⟨"good", 42, "ann@example.com", by decide, by decide, by decide, rfl⟩,
   (c19_verify_token_gate demoVerify { authorization := some "Bearer" }).2.2.1
      (Or.inl (by decide)),
   (c19_verify_token_gate demoVerify { authorization := none }).2.2.1 (Or.inl (by decide)),
   (c19_verify_token_gate demoVerify { authorization := some "Bearer old" }).2.2.2.1 "old"
      (by decide) (by decide) (by decide),
   (c19_verify_token_gate demoVerify { authorization := some "Bearer forged" }).2.2.2.2 "forged"
      (by decide) (by decide) (by decide)⟩

/-! ## C20 -/

theorem findByEmailOrUsername_some {t : UserTable} {email username : String}
    (h : ∃ x ∈ t.users, x.email = email ∨ x.username = username) :
    ∃ x, User.findByEmailOrUsername t email username = some x := by
  obtain ⟨x, hx, hp⟩ := h
  have hsome : (User.findByEmailOrUsername t email username).isSome = true := by
    unfold User.findByEmailOrUsername
    rw [List.find?_isSome]
    exact ⟨x, hx, by rcases hp with hp | hp <;> simp [hp]⟩
  exact Option.isSome_iff_exists.1 hsome

/-- C20: a registration that carries a username, an email and a password and
whose email or username is already in the `Users` table is answered 409
`'User already exists'` and the table is left as it was; a registration in
which the username, the email or the password is missing (absent, `null` or
empty) is answered 400 and the table is left as it was.  The 409 response
differs from every 404 response of the request and status routes in its status
code and in its `error` label. -/
theorem c20_register_refusals (libs : AuthLibs) (t : UserTable) (now : Nat) (b : RegisterBody) :
    ((∃ u e p, b.username = .str u ∧ b.email = .str e ∧ b.password = .str p ∧
        u ≠ "" ∧ e ≠ "" ∧ p ≠ "" ∧ ∃ x ∈ t.users, x.email = e ∨ x.username = u) →
      postRegister libs t now b =
        ({ status := 409,
           body := .notFound "User already exists"
             (some "Email or username is already registered") }, t)) ∧
    ((b.username.truthy = false ∨ b.email.truthy = false ∨ b.password.truthy = false) →
      postRegister libs t now b =
        ({ status := 400,
           body := .missingFields "Missing required fields" ["username", "email", "password"] },
         t)) ∧
    (∀ (s : Store) (userId id : Nat) (message : Option String),
      postRegisterConflict.status = 409 ∧
      (getRequest s userId id).status ≠ 409 ∧
      postTrackNotFound.status ≠ 409 ∧
      postRegisterConflict.body ≠ .notFound "Service request not found" message) := by
  refine ⟨?_, ?_, ?_⟩
  · rintro ⟨u, e, p, hu, he, hp, hu0, he0, hp0, hex⟩
    obtain ⟨x, hx⟩ := findByEmailOrUsername_some hex
    unfold postRegister
    simp [hu, he, hp, hu0, he0, hp0, hx, postRegisterConflict]
  · intro h
    unfold postRegister
    cases hu : b.username <;> cases he : b.email <;> cases hp : b.password <;>
      simp_all [Field.truthy, postRegisterMissing]
  · intro s userId id message
    refine ⟨rfl, ?_, by decide, ?_⟩
    · unfold getRequest
      split <;> simp
    · simp [postRegisterConflict]

/-- C20 on a table with one user: a second registration with her email, one
with her username and one without password are refused and store nothing. -/
theorem c20_register_refusals_witness :
    (oneUser.users.map (fun u => (u.username, u.email)) = [("ann", "ann@example.com")]) ∧
    postRegister demoLibs oneUser 60
        { username := .str "bob", email := .str "ann@example.com", password := .str "secret12" } =
      (postRegisterConflict, oneUser) ∧
    postRegister demoLibs oneUser 60
        { username := .str "ann", email := .str "other@example.com", password := .str "secret12" } =
      (postRegisterConflict, oneUser) ∧
    postRegister demoLibs oneUser 60
        { username := .str "bob", email := .str "bob@example.com", password := .undefined } =
      (postRegisterMissing, oneUser) :=
  ⟨by decide,
   (c20_register_refusals demoLibs oneUser 60
      { username := .str "bob", email := .str "ann@example.com", password := .str "secret12" }).1
      ⟨"bob", "ann@example.com", "secret12", rfl, rfl, rfl, by decide, by decide, by decide,
        by decide⟩,
   (c20_register_refusals demoLibs oneUser 60
      { username := .str "ann", email := .str "other@example.com", password := .str "secret12" }).1
      ⟨"ann", "other@example.com", "secret12", rfl, rfl, rfl, by decide, by decide, by decide,
        by decide⟩,
   (c20_register_refusals demoLibs oneUser 60
      { username := .str "bob", email := .str "bob@example.com", password := .undefined }).2.1
      (Or.inr (Or.inr rfl))⟩

/-! ## C21 -/

theorem findByEmail_none {t : UserTable} {email : String}
    (h : ∀ x ∈ t.users, x.email ≠ email) : User.findByEmail t email = none := by
  unfold User.findByEmail
  rw [List.find?_eq_none]
  intro x hx
  simpa using h x hx

theorem findByEmail_mem {t : UserTable} {email : String} {x : User}
    (h : User.findByEmail t email = some x) : x ∈ t.users ∧ x.email = email := by
  unfold User.findByEmail at h
  refine ⟨List.mem_of_find?_eq_some h, ?_⟩
  have := List.find?_some h
  simpa using this

theorem findByEmail_registered {t : UserTable} {email : String}
    (h : ∃ x ∈ t.users, x.email = email) :
    ∃ x, User.findByEmail t email = some x ∧ x ∈ t.users ∧ x.email = email := by
  obtain ⟨x, hx, hxe⟩ := h
  have hsome : (User.findByEmail t email).isSome = true := by
    unfold User.findByEmail
    rw [List.find?_isSome]
    exact ⟨x, hx, by simp [hxe]⟩
  obtain ⟨y, hy⟩ := Option.isSome_iff_exists.1 hsome
  exact ⟨y, hy, findByEmail_mem hy⟩

theorem truthy_str {s : String} (h : s ≠ "") : (JsonValue.str s).truthy = true := by
  simp [JsonValue.truthy, h]

theorem comparePassword_not_string (login : LoginLibs) (user : User) {v : JsonValue}
    (h : ∀ s, v ≠ .str s) : User.comparePassword login user v = .error .illegalArguments := by
  cases v <;> first | rfl | exact absurd rfl (h _)

/-- C21: the response to a login can reveal whether an email is registered.
With a password that is truthy but not a string (a non-zero number, `true`, an
array or an object), a login with a non-empty email that no user has gets 401
`'Invalid credentials'`, while the same login with a registered email gets the
500 response of the `catch` block, `'Login failed'`: `bcryptjs.compare` rejects
the password, and it is reached only when the email is registered.  The two
responses differ. -/
theorem c21_non_string_password_reveals_registration (login : LoginLibs) (libs : AuthLibs)
    (t : UserTable) (unknown known : String) (password : JsonValue)
    (hunknown : unknown ≠ "") (hknown : known ≠ "")
    (htruthy : password.truthy = true) (hother : ∀ s, password ≠ .str s)
    (hunregistered : ∀ x ∈ t.users, x.email ≠ unknown)
    (hregistered : ∃ x ∈ t.users, x.email = known) :
    postLogin login libs t { email := .str unknown, password := password } =
      { status := 401,
        body := .notFound "Invalid credentials" (some "Email or password is incorrect") } ∧
    postLogin login libs t { email := .str known, password := password } =
      { status := 500, body := .failure "Login failed" .illegalArguments } ∧
    postLogin login libs t { email := .str unknown, password := password } ≠
      postLogin login libs t { email := .str known, password := password } := by
  have h1 : postLogin login libs t { email := .str unknown, password := password } =
      { status := 401,
        body := .notFound "Invalid credentials" (some "Email or password is incorrect") } := by
    unfold postLogin
    simp [truthy_str hunknown, htruthy, User.findOne, findByEmail_none hunregistered,
      postLoginInvalid]
  have h2 : postLogin login libs t { email := .str known, password := password } =
      { status := 500, body := .failure "Login failed" .illegalArguments } := by
    obtain ⟨x, hx, -, -⟩ := findByEmail_registered hregistered
    unfold postLogin
    simp [truthy_str hknown, htruthy, User.findOne, hx,
      comparePassword_not_string login x hother, postLoginCatch]
  refine ⟨h1, h2, ?_⟩
  rw [h1, h2]
  decide

/-- C21 on a table with one user and the password `12345` sent as a number:
the unregistered email gets 401, the registered one 500. -/
theorem c21_non_string_password_reveals_registration_witness :
    postLogin demoLogin demoLibs oneUser
        { email := .str "bob@example.com", password := .number 12345 } =
      { status := 401,
        body := .notFound "Invalid credentials" (some "Email or password is incorrect") } ∧
    postLogin demoLogin demoLibs oneUser
        { email := .str "ann@example.com", password := .number 12345 } =
      { status := 500, body := .failure "Login failed" .illegalArguments } ∧
    postLogin demoLogin demoLibs oneUser
        { email := .str "bob@example.com", password := .number 12345 } ≠
      postLogin demoLogin demoLibs oneUser
        { email := .str "ann@example.com", password := .number 12345 } :=
  c21_non_string_password_reveals_registration demoLogin demoLibs oneUser "bob@example.com"
    "ann@example.com" (.number 12345) (by decide) (by decide) (by decide)
    (fun _ h => JsonValue.noConfusion h) (by decide) (by decide)

/-- With an email and a password that are non-empty strings, a login with an
email that no user has and a login with a registered email and a password on
which `bcryptjs.compare` resolves to `false` get the same response, 401
`'Invalid credentials'` with the message `'Email or password is incorrect'`,
which carries no token; a login without email or password gets 400 whatever
the table. -/
theorem login_string_credentials_hide_registration (login : LoginLibs) (libs : AuthLibs)
    (t : UserTable) (unknown known password wrong : String)
    (hunknown : unknown ≠ "") (hknown : known ≠ "") (hpassword : password ≠ "")
    (hwrong : wrong ≠ "")
    (hunregistered : ∀ x ∈ t.users, x.email ≠ unknown)
    (hregistered : ∃ x ∈ t.users, x.email = known)
    (hmismatch : ∀ x ∈ t.users, x.email = known → login.compare wrong x.password = .ok false) :
    postLogin login libs t { email := .str unknown, password := .str password } =
      { status := 401,
        body := .notFound "Invalid credentials" (some "Email or password is incorrect") } ∧
    postLogin login libs t { email := .str known, password := .str wrong } =
      { status := 401,
        body := .notFound "Invalid credentials" (some "Email or password is incorrect") } ∧
    (∀ (t2 : UserTable) (b : LoginBody), b.email.truthy = false ∨ b.password.truthy = false →
      postLogin login libs t2 b =
        { status := 400,
          body := .notFound "Missing credentials" (some "Email and password are required") }) := by
  refine ⟨?_, ?_, ?_⟩
  · unfold postLogin
    simp [truthy_str hunknown, truthy_str hpassword, User.findOne,
      findByEmail_none hunregistered, postLoginInvalid]
  · obtain ⟨x, hx, hxm, hxe⟩ := findByEmail_registered hregistered
    unfold postLogin
    simp [truthy_str hknown, truthy_str hwrong, User.findOne, hx, User.comparePassword,
      hmismatch x hxm hxe, postLoginInvalid]
  · intro t2 b hb
    unfold postLogin
    rcases hb with hb | hb <;> simp [hb, postLoginMissing]

theorem demoLogin_rejects_guess :
    ∀ x ∈ oneUser.users, x.email = "ann@example.com" →
      demoLogin.compare "guess" x.password = .ok false :=
  fun x hx _ => congrArg Except.ok
    ((by decide : ∀ y ∈ oneUser.users, (y.password == "hashed:" ++ "guess") = false) x hx)

/-- On a table with one user: the right password logs in, and an unknown email
and the registered email with a wrong password get the same 401 response. -/
theorem login_string_credentials_hide_registration_witness :
    (postLogin demoLogin demoLibs oneUser
        { email := .str "ann@example.com", password := .str "TestPass123" }).status = 200 ∧
    postLogin demoLogin demoLibs oneUser
        { email := .str "bob@example.com", password := .str "TestPass123" } =
      postLogin demoLogin demoLibs oneUser
        { email := .str "ann@example.com", password := .str "guess" } ∧
    postLogin demoLogin demoLibs oneUser
        { email := .str "ann@example.com", password := .str "guess" } =
      { status := 401,
        body := .notFound "Invalid credentials" (some "Email or password is incorrect") } :=
  ⟨by decide,
   ((login_string_credentials_hide_registration demoLogin demoLibs oneUser "bob@example.com"
      "ann@example.com" "TestPass123" "guess" (by decide) (by decide) (by decide) (by decide)
      (by decide) (by decide) demoLogin_rejects_guess).1).trans
    ((login_string_credentials_hide_registration demoLogin demoLibs oneUser "bob@example.com"
      "ann@example.com" "TestPass123" "guess" (by decide) (by decide) (by decide) (by decide)
      (by decide) (by decide) demoLogin_rejects_guess).2.1).symm,
   (login_string_credentials_hide_registration demoLogin demoLibs oneUser "bob@example.com"
      "ann@example.com" "TestPass123" "guess" (by decide) (by decide) (by decide) (by decide)
      (by decide) (by decide) demoLogin_rejects_guess).2.1⟩

/-! ## C22: the language of the pattern of `validateEmail` -/

/-- A word over the character classes made of letters of `[^\s@]` only. -/
theorem mem_star_notSpaceAt (x : List CharClass) :
    x ∈ KStar.kstar notSpaceAt.matches' ↔ ∀ c ∈ x, c = CharClass.dot ∨ c = CharClass.other := by
  rw [Language.mem_kstar]
  constructor
  · rintro ⟨L, rfl, hL⟩ c hc
    rw [List.mem_flatten] at hc
    obtain ⟨y, hy, hcy⟩ := hc
    have := hL y hy
    simp only [notSpaceAt, RegularExpression.matches', Language.mem_add] at this
    rcases this with h | h
    · have hy' : y = [CharClass.dot] := h
      rw [hy'] at hcy
      left; simpa using hcy
    · have hy' : y = [CharClass.other] := h
      rw [hy'] at hcy
      right; simpa using hcy
  · intro h
    refine ⟨x.map (fun c => [c]), ?_, ?_⟩
    · induction x with
      | nil => rfl
      | cons c cs ih =>
        simp only [List.map_cons, List.flatten_cons, List.singleton_append]
        rw [← ih (fun d hd => h d (List.mem_cons_of_mem _ hd))]
    · intro y hy
      obtain ⟨c, hc, rfl⟩ := List.mem_map.1 hy
      simp only [notSpaceAt, RegularExpression.matches', Language.mem_add]
      rcases h c hc with rfl | rfl
      · left; rfl
      · right; rfl

theorem mem_oneOrMore_notSpaceAt (x : List CharClass) :
    x ∈ (oneOrMore notSpaceAt).matches' ↔
      x ≠ [] ∧ ∀ c ∈ x, c = CharClass.dot ∨ c = CharClass.other := by
  have hP : ∀ y : List CharClass, y ∈ notSpaceAt.matches' ↔
      y = [CharClass.dot] ∨ y = [CharClass.other] := by
    intro y
    simp only [notSpaceAt, RegularExpression.matches', Language.mem_add]
    rfl
  show x ∈ notSpaceAt.matches' * KStar.kstar notSpaceAt.matches' ↔ _
  rw [Language.mem_mul]
  constructor
  · rintro ⟨a, ha, b, hb, rfl⟩
    rw [mem_star_notSpaceAt] at hb
    rw [hP] at ha
    rcases ha with rfl | rfl
    · refine ⟨by simp, ?_⟩
      intro c hc
      simp only [List.singleton_append, List.mem_cons] at hc
      rcases hc with rfl | hc
      · left; rfl
      · exact hb c hc
    · refine ⟨by simp, ?_⟩
      intro c hc
      simp only [List.singleton_append, List.mem_cons] at hc
      rcases hc with rfl | hc
      · right; rfl
      · exact hb c hc
  · rintro ⟨hne, h⟩
    cases x with
    | nil => exact absurd rfl hne
    | cons c cs =>
      refine ⟨[c], ?_, cs, ?_, rfl⟩
      · rw [hP]
        rcases h c (List.mem_cons_self _ _) with rfl | rfl
        · left; rfl
        · right; rfl
      · rw [mem_star_notSpaceAt]
        exact fun d hd => h d (List.mem_cons_of_mem _ hd)

/-- The words the pattern matches: three non-empty runs of `[^\s@]` letters,
separated by an `@` and by a full stop. -/
theorem mem_emailRegex (w : List CharClass) :
    w ∈ emailRegex.matches' ↔
      ∃ a b c : List CharClass,
        w = a ++ CharClass.atSign :: (b ++ CharClass.dot :: c) ∧
        (a ≠ [] ∧ ∀ x ∈ a, x = CharClass.dot ∨ x = CharClass.other) ∧
        (b ≠ [] ∧ ∀ x ∈ b, x = CharClass.dot ∨ x = CharClass.other) ∧
        (c ≠ [] ∧ ∀ x ∈ c, x = CharClass.dot ∨ x = CharClass.other) := by
  show w ∈ (oneOrMore notSpaceAt).matches' *
      (({[CharClass.atSign]} : Language CharClass) *
        ((oneOrMore notSpaceAt).matches' *
          (({[CharClass.dot]} : Language CharClass) * (oneOrMore notSpaceAt).matches'))) ↔ _
  simp only [Language.mem_mul, mem_oneOrMore_notSpaceAt]
  constructor
  · rintro ⟨a, ha, r1, ⟨x1, hx1, r2, ⟨b, hb, r3, ⟨x2, hx2, c, hc, rfl⟩, rfl⟩, rfl⟩, rfl⟩
    have h1 : x1 = [CharClass.atSign] := hx1
    have h2 : x2 = [CharClass.dot] := hx2
    subst h1 h2
    exact ⟨a, b, c, by simp, ha, hb, hc⟩
  · rintro ⟨a, b, c, rfl, ha, hb, hc⟩
    exact ⟨a, ha, _, ⟨[CharClass.atSign], rfl, _, ⟨b, hb, _,
      ⟨[CharClass.dot], rfl, c, hc, rfl⟩, rfl⟩, rfl⟩, by simp⟩

theorem classify_atSign (c : Char) : classify c = CharClass.atSign ↔ c = '@' := by
  unfold classify
  split
  · simp [*]
  · split
    · simp [*]
    · split <;> simp [*]

theorem classify_dot (c : Char) : classify c = CharClass.dot ↔ c = '.' := by
  unfold classify
  split
  · next h => subst h; simp
  · split
    · simp [*]
    · split <;> simp [*]

theorem classify_notSpaceAt (c : Char) :
    (classify c = CharClass.dot ∨ classify c = CharClass.other) ↔
      c ≠ '@' ∧ isJsSpace c = false := by
  unfold classify
  split
  · simp [*]
  · split
    · next h1 h2 =>
      subst h2
      simp
      decide
    · split <;> simp [*]

/-- The strings `validateEmail` accepts, character by character: three
non-empty runs of characters other than whitespace and `@`, separated by an
`@` and by a full stop. -/
theorem validateEmail_iff_runs (email : String) :
    validateEmail email = true ↔
      ∃ a b c : List Char,
        email.data = a ++ '@' :: (b ++ '.' :: c) ∧
        (a ≠ [] ∧ ∀ x ∈ a, x ≠ '@' ∧ isJsSpace x = false) ∧
        (b ≠ [] ∧ ∀ x ∈ b, x ≠ '@' ∧ isJsSpace x = false) ∧
        (c ≠ [] ∧ ∀ x ∈ c, x ≠ '@' ∧ isJsSpace x = false) := by
  unfold validateEmail
  rw [RegularExpression.rmatch_iff_matches', mem_emailRegex]
  have hrun : ∀ l : List Char,
      (l.map classify ≠ [] ∧
        ∀ x ∈ l.map classify, x = CharClass.dot ∨ x = CharClass.other) ↔
      (l ≠ [] ∧ ∀ x ∈ l, x ≠ '@' ∧ isJsSpace x = false) := by
    intro l
    simp only [ne_eq, List.map_eq_nil_iff, List.mem_map, forall_exists_index, and_imp,
      forall_apply_eq_imp_iff₂, classify_notSpaceAt]
  constructor
  · rintro ⟨a, b, c, hw, ha, hb, hc⟩
    rw [List.map_eq_append_iff] at hw
    obtain ⟨la, r1, hl, rfl, hr1⟩ := hw
    rw [List.map_eq_cons_iff] at hr1
    obtain ⟨x1, r2, rfl, hx1, hr2⟩ := hr1
    rw [List.map_eq_append_iff] at hr2
    obtain ⟨lb, r3, rfl, rfl, hr3⟩ := hr2
    rw [List.map_eq_cons_iff] at hr3
    obtain ⟨x2, lc, rfl, hx2, rfl⟩ := hr3
    rw [classify_atSign] at hx1
    rw [classify_dot] at hx2
    subst hx1 hx2
    exact ⟨la, lb, lc, hl, (hrun la).1 ha, (hrun lb).1 hb, (hrun lc).1 hc⟩
  · rintro ⟨la, lb, lc, hl, ha, hb, hc⟩
    refine ⟨la.map classify, lb.map classify, lc.map classify, ?_, (hrun la).2 ha,
      (hrun lb).2 hb, (hrun lc).2 hc⟩
    rw [hl]
    simp only [List.map_append, List.map_cons]
    rw [(classify_atSign '@').2 rfl, (classify_dot '.').2 rfl]

theorem runs_iff_emailShape (email : String) :
    (∃ a b c : List Char,
        email.data = a ++ '@' :: (b ++ '.' :: c) ∧
        (a ≠ [] ∧ ∀ x ∈ a, x ≠ '@' ∧ isJsSpace x = false) ∧
        (b ≠ [] ∧ ∀ x ∈ b, x ≠ '@' ∧ isJsSpace x = false) ∧
        (c ≠ [] ∧ ∀ x ∈ c, x ≠ '@' ∧ isJsSpace x = false)) ↔ EmailShape email := by
  unfold EmailShape
  constructor
  · rintro ⟨a, b, c, hl, ⟨ha0, ha⟩, ⟨hb0, hb⟩, ⟨hc0, hc⟩⟩
    have hca : a.count '@' = 0 := List.count_eq_zero.2 (fun h => (ha _ h).1 rfl)
    have hcb : b.count '@' = 0 := List.count_eq_zero.2 (fun h => (hb _ h).1 rfl)
    have hcc : c.count '@' = 0 := List.count_eq_zero.2 (fun h => (hc _ h).1 rfl)
    refine ⟨?_, ?_, a, b ++ '.' :: c, hl, ha0, b.length, ?_, ?_, ?_⟩
    · intro x hx
      rw [hl] at hx
      simp only [List.mem_append, List.mem_cons] at hx
      rcases hx with hx | rfl | hx | rfl | hx
      · exact (ha x hx).2
      · decide
      · exact (hb x hx).2
      · decide
      · exact (hc x hx).2
    · rw [hl]
      simp [List.count_append, List.count_cons, hca, hcb, hcc]
    · exact List.length_pos.2 hb0
    · have := List.length_pos.2 hc0
      simp only [List.length_append, List.length_cons]
      omega
    · rw [List.getElem?_append_right (Nat.le_refl _)]
      simp
  · rintro ⟨hws, hcount, before, after, hl, hb0, i, hi0, hi1, hi⟩
    have hilt : i < after.length := by omega
    have hget : after[i] = '.' := by
      rw [List.getElem?_eq_getElem hilt] at hi
      exact Option.some.inj hi
    have hafter : after = after.take i ++ '.' :: after.drop (i + 1) := by
      conv_lhs => rw [← List.take_append_drop i after]
      rw [List.drop_eq_getElem_cons hilt, hget]
    have hcnt : before.count '@' = 0 ∧ after.count '@' = 0 := by
      rw [hl] at hcount
      simp only [List.count_append, List.count_cons, beq_self_eq_true, if_true] at hcount
      omega
    have hnb : ∀ x ∈ before, x ≠ '@' := fun x hx h =>
      List.count_eq_zero.1 hcnt.1 (h ▸ hx)
    have hna : ∀ x ∈ after, x ≠ '@' := fun x hx h =>
      List.count_eq_zero.1 hcnt.2 (h ▸ hx)
    have hwb : ∀ x ∈ before, isJsSpace x = false := fun x hx =>
      hws x (by rw [hl]; exact List.mem_append_left _ hx)
    have hwa : ∀ x ∈ after, isJsSpace x = false := fun x hx =>
      hws x (by rw [hl]; exact List.mem_append_right _ (List.mem_cons_of_mem _ hx))
    refine ⟨before, after.take i, after.drop (i + 1), ?_, ⟨hb0, fun x hx => ⟨hnb x hx, hwb x hx⟩⟩,
      ⟨?_, fun x hx => ⟨hna x (List.mem_of_mem_take hx), hwa x (List.mem_of_mem_take hx)⟩⟩,
      ⟨?_, fun x hx => ⟨hna x (List.mem_of_mem_drop hx), hwa x (List.mem_of_mem_drop hx)⟩⟩⟩
    · rw [hl]
      congr 2
    · intro h
      have := congrArg List.length h
      simp only [List.length_take, List.length_nil] at this
      omega
    · intro h
      have := congrArg List.length h
      simp only [List.length_drop, List.length_nil] at this
      omega

/-- C22: for every string, `validateEmail` answers `true` exactly when the
string contains no whitespace character (in the sense of `\s`), contains
exactly one `@`, has at least one character before the `@`, and the part after
the `@` contains a full stop that is neither its first nor its last
character. -/
theorem c22_validateEmail_iff_shape (email : String) :
    validateEmail email = true ↔ EmailShape email :=
  (validateEmail_iff_runs email).trans (runs_iff_emailShape email)

/-- C22 on examples: an address of the usual form is accepted and therefore has
the shape; a string without a full stop after the `@`, one with a space and
one with two `@` are rejected. -/
theorem c22_validateEmail_examples :
    validateEmail "smoketest@example.com" = true ∧
    EmailShape "smoketest@example.com" ∧
    validateEmail "a@b.c.d" = true ∧
    validateEmail "user@localhost" = false ∧
    validateEmail "user@.com" = false ∧
    validateEmail "user@example." = false ∧
    validateEmail "@example.com" = false ∧
    validateEmail "us er@example.com" = false ∧
    validateEmail "a@b@c.de" = false ∧
    ¬ EmailShape "a@b@c.de" :=
  ⟨by decide, (c22_validateEmail_iff_shape "smoketest@example.com").1 (by decide), by decide,
   by decide, by decide, by decide, by decide, by decide, by decide,
   fun h => absurd ((c22_validateEmail_iff_shape "a@b@c.de").2 h) (by decide)⟩

end OnlineService
